import Mathlib

/-!
Shallow embedding of the TravelAgent backend's multi-agent core:
the sliding-window rate limiter (backend/app/llm/rate_limiter.py), the
retry/backoff wrapper and the streaming retry loop
(backend/app/llm/provider.py), the router agent
(backend/app/agents/router_agent.py), the flight and assistant tool-call
loops (backend/app/agents/flight_agent.py, assistant_agent.py) and the
streamed orchestrator entry point (backend/app/agents/orchestrator.py).

Monotonic-clock timestamps and backoff durations (Python floats) are
modelled as integers: every constant involved is integral and the code only
adds, subtracts, multiplies and compares them, so this is faithful up to
clock granularity.
Python exceptions are modelled with Except; Python dicts are modelled as
association lists preserving insertion order.
-/

-- ── Generic string helpers ──────────────────────────────────────────────────

/-- Whether the first list is an initial segment of the second. -/
def leadsWith : List Char → List Char → Bool
  | [], _ => true
  | _ :: _, [] => false
  | a :: as, b :: bs => a == b && leadsWith as bs

/-- Whether `needle` occurs contiguously anywhere inside the second list. -/
def containsSeq (needle : List Char) : List Char → Bool
  | [] => needle.isEmpty
  | c :: rest => leadsWith needle (c :: rest) || containsSeq needle rest

/-- Python `needle in hay` for strings. -/
def containsStr (hay needle : String) : Bool :=
  containsSeq needle.toList hay.toList

/-- Python `str.lower()` (character-wise; the texts involved are ASCII). -/
def pyLower (s : String) : String :=
  String.mk (s.toList.map Char.toLower)

/-- Python regex `\s` / `str.strip()` whitespace over ASCII. -/
def isPySpace (c : Char) : Bool :=
  c = ' ' || c = '\t' || c = '\n' || c = '\r' || c = '\x0b' || c = '\x0c'

/-- Python `str.strip()`. -/
def pyStrip (s : String) : String :=
  String.mk (((s.toList.dropWhile isPySpace).reverse.dropWhile isPySpace).reverse)

-- ── Rate limiter (backend/app/llm/rate_limiter.py) ──────────────────────────

def MAX_REQUESTS_PER_MINUTE : Nat := 6
def MAX_REQUESTS_PER_HOUR : Nat := 60
def MAX_REQUESTS_PER_DAY : Nat := 500
def GLOBAL_MAX_REQUESTS_PER_MINUTE : Nat := 30
def COOLDOWN_SECONDS : Nat := 10
def WINDOW_MINUTE : ℤ := 60
def WINDOW_HOUR : ℤ := 3600
def WINDOW_DAY : ℤ := 86400

/-- `_UserBucket`: timestamps of LLM calls for a single user. -/
structure UserBucket where
  timestamps : List ℤ
deriving DecidableEq

/-- `_UserBucket._prune`: drop timestamps at or before `now - window`. -/
def UserBucket.prune (b : UserBucket) (now window : ℤ) : UserBucket :=
  ⟨b.timestamps.filter (fun t => decide (now - window < t))⟩

/-- `_UserBucket.count_in_window` (prunes, then counts what is left). -/
def UserBucket.countInWindow (b : UserBucket) (now window : ℤ) : Nat :=
  (b.prune now window).timestamps.length

/-- `_UserBucket.record`: append the current timestamp. -/
def UserBucket.record (b : UserBucket) (now : ℤ) : UserBucket :=
  ⟨b.timestamps ++ [now]⟩

/-- The `RateLimiter` instance state: per-user buckets (a defaultdict keyed
by user-id string), the global bucket, and the cleanup counter. -/
structure RateLimiterState where
  userBuckets : List (String × UserBucket)
  globalBucket : UserBucket
  cleanupCounter : Nat
deriving DecidableEq

/-- Fresh `RateLimiter()` state. -/
def initRateLimiter : RateLimiterState := ⟨[], ⟨[]⟩, 0⟩

/-- `RateLimiter._get_key`. -/
def rlKey (userId : Option String) : String :=
  match userId with
  | some u => u
  | none => "__anonymous__"

/-- defaultdict read: a missing key denotes an empty bucket. -/
def getBucket (l : List (String × UserBucket)) (k : String) : UserBucket :=
  match l with
  | [] => ⟨[]⟩
  | (k', b) :: t => if k' = k then b else getBucket t k

/-- Store a bucket under a key (replacing in place, appending when new). -/
def setBucket (l : List (String × UserBucket)) (k : String) (b : UserBucket) :
    List (String × UserBucket) :=
  match l with
  | [] => [(k, b)]
  | (k', b') :: t => if k' = k then (k, b) :: t else (k', b') :: setBucket t k b

/-- Outcome of `check_rate_limit`: pass, or a `RateLimitExceeded` rejection
carrying the human-readable message and the retry-after hint. -/
inductive CheckOutcome where
  | ok
  | exceeded (message : String) (retryAfter : Nat)
deriving DecidableEq

def perMinuteMsg : String :=
  s!"Bạn đã gửi quá {MAX_REQUESTS_PER_MINUTE} tin nhắn trong 1 phút. Vui lòng đợi {COOLDOWN_SECONDS} giây rồi thử lại. ⏳"

def perHourMsg : String :=
  s!"Bạn đã đạt giới hạn {MAX_REQUESTS_PER_HOUR} tin nhắn/giờ. Vui lòng quay lại sau. ⏳"

def perDayMsg : String :=
  s!"Bạn đã đạt giới hạn {MAX_REQUESTS_PER_DAY} tin nhắn/ngày. Giới hạn sẽ được reset vào ngày mai. ⏳"

def globalOverloadMsg : String :=
  "Hệ thống đang quá tải. Vui lòng thử lại sau vài giây. 🔄"

/-- `RateLimiter.check_rate_limit`.  Each `count_in_window` call prunes the
bucket in place, so the state carries the pruned buckets out, and the first
violated tier (minute, hour, day, global) determines the rejection. -/
def checkRateLimit (s : RateLimiterState) (userId : Option String) (now : ℤ) :
    RateLimiterState × CheckOutcome :=
  let key := rlKey userId
  let b := getBucket s.userBuckets key
  let bMin := b.prune now WINDOW_MINUTE
  if MAX_REQUESTS_PER_MINUTE ≤ bMin.timestamps.length then
    ({ s with userBuckets := setBucket s.userBuckets key bMin },
     .exceeded perMinuteMsg COOLDOWN_SECONDS)
  else
    let bHour := bMin.prune now WINDOW_HOUR
    if MAX_REQUESTS_PER_HOUR ≤ bHour.timestamps.length then
      ({ s with userBuckets := setBucket s.userBuckets key bHour },
       .exceeded perHourMsg 60)
    else
      let bDay := bHour.prune now WINDOW_DAY
      let s' := { s with userBuckets := setBucket s.userBuckets key bDay }
      if MAX_REQUESTS_PER_DAY ≤ bDay.timestamps.length then
        (s', .exceeded perDayMsg 300)
      else
        let g := s.globalBucket.prune now WINDOW_MINUTE
        let s'' := { s' with globalBucket := g }
        if GLOBAL_MAX_REQUESTS_PER_MINUTE ≤ g.timestamps.length then
          (s'', .exceeded globalOverloadMsg COOLDOWN_SECONDS)
        else
          (s'', .ok)

/-- `RateLimiter._cleanup_stale_buckets`: the stale scan prunes every bucket
to the day window in place and drops the buckets left empty. -/
def cleanupStale (l : List (String × UserBucket)) (now : ℤ) :
    List (String × UserBucket) :=
  (l.map (fun p => (p.1, p.2.prune now WINDOW_DAY))).filter
    (fun p => !p.2.timestamps.isEmpty)

/-- `RateLimiter.record_call`: append `now` to the per-user and global
buckets, and run the stale-bucket cleanup every 100th call. -/
def recordCall (s : RateLimiterState) (userId : Option String) (now : ℤ) :
    RateLimiterState :=
  let key := rlKey userId
  let ub := (getBucket s.userBuckets key).record now
  let s1 : RateLimiterState :=
    { s with userBuckets := setBucket s.userBuckets key ub,
             globalBucket := s.globalBucket.record now }
  let c := s.cleanupCounter + 1
  if 100 ≤ c then
    { s1 with cleanupCounter := 0, userBuckets := cleanupStale s1.userBuckets now }
  else
    { s1 with cleanupCounter := c }

/-- A sequence of `record_call`s with their timestamps. -/
def recordCalls (s : RateLimiterState) (userId : Option String) (ts : List ℤ) :
    RateLimiterState :=
  ts.foldl (fun acc t => recordCall acc userId t) s

-- ── Retry with backoff (backend/app/llm/provider.py) ────────────────────────

def MAX_RETRIES : Nat := 2
def INITIAL_BACKOFF_S : ℤ := 1
def BACKOFF_MULTIPLIER : ℤ := 2

def RETRYABLE_KEYWORDS : List String :=
  ["rate limit", "rate_limit", "429", "quota", "resource exhausted",
   "resourceexhausted", "503", "service unavailable",
   "temporarily unavailable", "timeout", "timed out", "connection",
   "DEADLINE_EXCEEDED"]

/-- `_is_retryable`: match the lowercased exception message against the
transient-failure keywords. -/
def isRetryableMsg (excMsg : String) : Bool :=
  RETRYABLE_KEYWORDS.any (fun kw => containsStr (pyLower excMsg) kw)

/-- `_invoke_with_retry` loop body.  The model is a function from the attempt
index to either a response text or an exception message.  Returns the final
result, the list of sleep durations performed, and the number of model
invocations made. -/
def invokeWithRetryGo (llm : Nat → Except String String) (maxRetries : Nat)
    (attempt : Nat) (backoff : ℤ) : Except String String × List ℤ × Nat :=
  match llm attempt with
  | .ok content => (.ok content, [], 1)
  | .error exc =>
    if h : attempt < maxRetries ∧ isRetryableMsg exc = true then
      let r := invokeWithRetryGo llm maxRetries (attempt + 1) (backoff * BACKOFF_MULTIPLIER)
      (r.1, backoff :: r.2.1, r.2.2 + 1)
    else
      (.error exc, [], 1)
termination_by maxRetries - attempt
decreasing_by omega

/-- `_invoke_with_retry` with the default configuration. -/
def invokeWithRetry (llm : Nat → Except String String) :
    Except String String × List ℤ × Nat :=
  invokeWithRetryGo llm MAX_RETRIES 0 INITIAL_BACKOFF_S

/-- `_format_error`: user-friendly error message from the exception text
(`none` models `exc is None`). -/
def formatError (provider modelName : String) (exc : Option String) : String :=
  let errorStr := pyLower (match exc with | some e => e | none => "")
  if containsStr errorStr "api key" || containsStr errorStr "unauthorized" then
    "🔑 API key không hợp lệ hoặc đã hết hạn. Vui lòng cập nhật API key trong Settings → LLM."
  else if containsStr errorStr "quota" || containsStr errorStr "rate" then
    "⏳ Mô hình AI đang quá tải (rate limit từ nhà cung cấp). Vui lòng thử lại sau vài phút hoặc chuyển sang mô hình khác."
  else if containsStr errorStr "connection" || containsStr errorStr "timeout" then
    "🔌 Không thể kết nối tới mô hình AI. Nếu dùng Ollama, hãy đảm bảo Ollama đang chạy trên máy."
  else
    let detail := match exc with | some e => e | none => "None"
    s!"⚠️ Lỗi khi gọi mô hình AI ({provider}/{modelName}).\n\nChi tiết: {detail}\n\nHãy kiểm tra lại cài đặt LLM hoặc thử mô hình khác."

/-- The retry loop of `stream_chat_response` (provider.py lines 290-318).
`astream attempt` gives the chunks the LLM emitted on that attempt followed
by `none` on completion or `some excMsg` on a mid-stream failure.  Chunks are
yielded to the caller as they arrive (empty chunks are skipped); the return
value is the full list of yielded strings in order, the sleeps performed, and
whether the stream ultimately succeeded.  On final failure the formatted
error message is yielded last. -/
def streamChatGo (astream : Nat → List String × Option String)
    (provider modelName : String) (attempt : Nat) (backoff : ℤ) :
    List String × List ℤ × Bool :=
  let att := astream attempt
  let yielded := att.1.filter (fun c => c ≠ "")
  match att.2 with
  | none => (yielded, [], true)
  | some exc =>
    if h : attempt < MAX_RETRIES ∧ isRetryableMsg exc = true then
      let r := streamChatGo astream provider modelName (attempt + 1) (backoff * BACKOFF_MULTIPLIER)
      (yielded ++ r.1, backoff :: r.2.1, r.2.2)
    else
      (yielded ++ [formatError provider modelName (some exc)], [], false)
termination_by MAX_RETRIES - attempt
decreasing_by omega

/-- The streamed retry loop from its entry point. -/
def streamChatRetry (astream : Nat → List String × Option String)
    (provider modelName : String) : List String × List ℤ × Bool :=
  streamChatGo astream provider modelName 0 INITIAL_BACKOFF_S

/-- The single-shot view of a streaming model: succeed with the concatenated
chunks when the attempt completes, fail with the exception otherwise. -/
def batchOf (astream : Nat → List String × Option String) :
    Nat → Except String String :=
  fun n =>
    match (astream n).2 with
    | none => .ok (String.join (astream n).1)
    | some e => .error e

-- ── JSON-compatible values and Python dict operations ───────────────────────

/-- A JSON-compatible Python value (conversation state, slots, tool data). -/
inductive JVal where
  | null
  | bool (b : Bool)
  | num (n : Int)
  | str (s : String)
  | arr (xs : List JVal)
  | obj (fields : List (String × JVal))

/-- Python truthiness of a JSON-compatible value. -/
def JVal.truthy : JVal → Bool
  | .null => false
  | .bool b => b
  | .num n => n != 0
  | .str s => s ≠ ""
  | .arr xs => !xs.isEmpty
  | .obj fs => !fs.isEmpty

def JVal.isNull : JVal → Bool
  | .null => true
  | _ => false

/-- A Python dict with string keys, as an insertion-ordered association list
with unique keys. -/
def Dict : Type := List (String × JVal)

/-- `d[k]` lookup / `d.get(k)`. -/
def dictGet (d : Dict) (k : String) : Option JVal :=
  match d with
  | [] => none
  | (k', v) :: t => if k' = k then some v else dictGet t k

/-- `d.get(k, default)`. -/
def dictGetD (d : Dict) (k : String) (dflt : JVal) : JVal :=
  match dictGet d k with
  | some v => v
  | none => dflt

/-- `d[k] = v`: replace in place when the key exists, append when new. -/
def dictSet (d : Dict) (k : String) (v : JVal) : Dict :=
  match d with
  | [] => [(k, v)]
  | (k', v') :: t => if k' = k then (k, v) :: t else (k', v') :: dictSet t k v

/-- `d.pop(k, None)` effect on the dict. -/
def dictRemove (d : Dict) (k : String) : Dict :=
  match d with
  | [] => []
  | (k', v') :: t => if k' = k then t else (k', v') :: dictRemove t k

mutual

/-- Python `repr()` of a JSON-compatible value (string escaping inside reprs
is not needed by any value this development builds). -/
def pyRepr : JVal → String
  | .null => "None"
  | .bool b => if b then "True" else "False"
  | .num n => toString n
  | .str s => "\x27" ++ s ++ "\x27"
  | .arr xs => "[" ++ pyReprItems xs ++ "]"
  | .obj fs => "\x7b" ++ pyReprFields fs ++ "\x7d"

def pyReprItems : List JVal → String
  | [] => ""
  | [x] => pyRepr x
  | x :: y :: t => pyRepr x ++ ", " ++ pyReprItems (y :: t)

def pyReprFields : List (String × JVal) → String
  | [] => ""
  | [(k, v)] => "\x27" ++ k ++ "\x27: " ++ pyRepr v
  | (k, v) :: y :: t => "\x27" ++ k ++ "\x27: " ++ pyRepr v ++ ", " ++ pyReprFields (y :: t)

end

/-- Python `str()` as used in f-string interpolation. -/
def pyStr : JVal → String
  | .str s => s
  | v => pyRepr v

mutual

/-- `json.dumps(…, ensure_ascii=False)` with default separators. -/
def jsonDumps : JVal → String
  | .null => "null"
  | .bool b => if b then "true" else "false"
  | .num n => toString n
  | .str s => "\"" ++ s ++ "\""
  | .arr xs => "[" ++ jsonDumpsItems xs ++ "]"
  | .obj fs => "\x7b" ++ jsonDumpsFields fs ++ "\x7d"

def jsonDumpsItems : List JVal → String
  | [] => ""
  | [x] => jsonDumps x
  | x :: y :: t => jsonDumps x ++ ", " ++ jsonDumpsItems (y :: t)

def jsonDumpsFields : List (String × JVal) → String
  | [] => ""
  | [(k, v)] => "\"" ++ k ++ "\": " ++ jsonDumps v
  | (k, v) :: y :: t => "\"" ++ k ++ "\": " ++ jsonDumps v ++ ", " ++ jsonDumpsFields (y :: t)

end

/-- Python `int(v)`: a ValueError propagates as an exception. -/
def pyInt (v : JVal) : Except String Int :=
  match v with
  | .num n => .ok n
  | .bool b => .ok (if b then 1 else 0)
  | .str s =>
    match (pyStrip s).toInt? with
    | some n => .ok n
    | none => .error ("ValueError: invalid literal for int() with base 10: " ++ s)
  | _ => .error "TypeError: int() argument"

-- ── Router agent (backend/app/agents/router_agent.py) ───────────────────────

def FLIGHT_INTENTS : List String :=
  ["flight_search", "book_flight", "cancel_booking"]

def ASSISTANT_INTENTS : List String :=
  ["view_booking", "view_passengers", "view_preferences", "view_calendar",
   "add_to_calendar", "send_email"]

/-- The fields `route_message` reads off the `_detect_intent` result (with
the documented JSON shape: `intent`, `slots`, `missing_slots`,
`follow_up_question`).  This is the LLM-classification input of a turn. -/
structure DetectResult where
  intent : String
  slots : Dict
  missingSlots : List String
  followUp : Option String

/-- Truthiness of `follow_up_question` (`None` and `""` are falsy). -/
def followUpTruthy (fu : Option String) : Bool :=
  match fu with
  | some s => s ≠ ""
  | none => false

/-- `state.get("slots", {})` read as a dict (this code never stores a
non-dict under `"slots"`; such a value reads as empty here). -/
def getSlotsD (state : Dict) : Dict :=
  match dictGet state "slots" with
  | some (.obj fs) => fs
  | _ => []

/-- `{**old, **{k: v for k, v in new.items() if v is not None}}`: non-null
new values overwrite old values for the same key. -/
def mergeSlots (old new : Dict) : Dict :=
  (new.filter (fun p => !p.2.isNull)).foldl (fun acc p => dictSet acc p.1 p.2) old

/-- router_agent.py lines 198-207: auto-fill `booking_id` from
`state["last_booking_id"]` for `add_to_calendar` / `send_email` when the
classification extracted no truthy `booking_id`.  The write
`state["slots"]["booking_id"] = last_booking_id` raises `KeyError` when the
state has no `"slots"` entry. -/
def autoFill (intent : String) (slots : Dict) (missing : List String)
    (state : Dict) : Except String (Dict × List String × Dict) :=
  if (intent = "add_to_calendar" || intent = "send_email")
      && !(dictGetD slots "booking_id" .null).truthy then
    let lastBooking := dictGetD state "last_booking_id" .null
    if lastBooking.truthy then
      let slots' := dictSet slots "booking_id" lastBooking
      match dictGet state "slots" with
      | some (.obj fs) =>
        let state' := dictSet state "slots" (.obj (dictSet fs "booking_id" lastBooking))
        .ok (slots', missing.erase "booking_id", state')
      | some _ => .error "TypeError: item assignment on non-dict \x27slots\x27"
      | none => .error "KeyError: \x27slots\x27"
    else
      .ok (slots, missing, state)
  else
    .ok (slots, missing, state)

/-- `_build_flight_task`.  `int(offer_index)` may raise, so the result is in
`Except`. -/
def buildFlightTask (intent : String) (slots : Dict) (state : Dict) :
    Except String String :=
  if intent = "flight_search" then
    let origin := pyStr (dictGetD slots "origin" (.str "?"))
    let destination := pyStr (dictGetD slots "destination" (.str "?"))
    let departDate := pyStr (dictGetD slots "depart_date" (.str "?"))
    let adults := pyStr (dictGetD slots "adults" (.num 1))
    let travelClass := pyStr (dictGetD slots "travel_class" (.str "ECONOMY"))
    .ok s!"Tìm chuyến bay từ {origin} đến {destination} ngày {departDate}, {adults} hành khách, hạng {travelClass}."
  else if intent = "book_flight" then
    let offerIdManual := dictGetD slots "offer_id" .null
    let offerIndex := dictGetD slots "offer_index" .null
    let flightNumber := dictGetD slots "flight_number" .null
    let lastOffers :=
      match dictGet state "last_offer_ids" with
      | some (.arr xs) => xs
      | _ => []
    if offerIdManual.truthy then
      let oid := pyStr offerIdManual
      .ok s!"Đặt vé cho offer_id: {oid}. Lấy passenger mặc định của user."
    else if flightNumber.truthy then
      let fn := pyStr flightNumber
      let origin := pyStr (dictGetD slots "origin" (.str "?"))
      let destination := pyStr (dictGetD slots "destination" (.str "?"))
      let departDate := pyStr (dictGetD slots "depart_date" (.str ""))
      .ok (s!"Tìm offer_id của chuyến bay {fn} bằng tool get_offer_by_flight_number với:\n"
        ++ s!"- flight_number: {fn}\n"
        ++ s!"- origin: {origin}\n"
        ++ s!"- destination: {destination}\n"
        ++ s!"- depart_date: {departDate}\n"
        ++ "Sau đó đặt vé. Lấy passenger mặc định của user.")
    else if offerIndex.truthy && !lastOffers.isEmpty then do
      let n ← pyInt offerIndex
      let idx : Int := n - 1
      if 0 ≤ idx ∧ idx < lastOffers.length then
        let oid := pyStr (lastOffers.getD idx.toNat .null)
        .ok s!"Đặt vé cho offer_id: {oid}. Lấy passenger mặc định của user."
      else
        let oix := pyStr offerIndex
        let cnt := toString lastOffers.length
        .ok s!"User chọn chuyến số {oix} nhưng chỉ có {cnt} chuyến. Thông báo lỗi."
    else
      .ok "User muốn đặt vé nhưng chưa có kết quả tìm kiếm trước đó. Yêu cầu tìm chuyến bay trước."
  else if intent = "cancel_booking" then
    let bid := pyStr (dictGetD slots "booking_id" (.str ""))
    .ok s!"Hủy booking với ID: {bid}"
  else
    let dumped := jsonDumps (.obj slots)
    .ok s!"Xử lý yêu cầu: {intent} với slots: {dumped}"

/-- `_build_assistant_task`. -/
def buildAssistantTask (intent : String) (slots : Dict) : String :=
  if intent = "view_booking" then
    let sf := dictGetD slots "status_filter" (.str "")
    if sf.truthy then
      let sfs := pyStr sf
      s!"Xem danh sách bookings của user. Lọc theo trạng thái: {sfs}"
    else
      "Xem danh sách bookings của user."
  else if intent = "view_passengers" then
    "Xem danh sách hành khách đã đăng ký của user."
  else if intent = "view_preferences" then
    "Xem sở thích chuyến bay của user."
  else if intent = "view_calendar" then
    "Xem lịch bay / calendar events của user."
  else if intent = "add_to_calendar" then
    let bid := pyStr (dictGetD slots "booking_id" (.str ""))
    s!"CALL TOOL: add_booking_to_calendar với booking_id={bid}. Thêm booking này vào Google Calendar của user. BẮT BUỘC phải gọi tool add_booking_to_calendar, không được trả lời text trực tiếp."
  else if intent = "send_email" then
    let bidV := dictGetD slots "booking_id" (.str "")
    let bidOr := if bidV.truthy then pyStr bidV else "không có"
    "CALL TOOL: send_flight_info_email để gửi thông tin chuyến bay tới email của user.\n"
      ++ s!"- Nếu có booking_id ({bidOr}), truyền booking_id vào tool.\n"
      ++ "- Nếu không có booking_id, hãy dùng get_bookings để lấy booking gần nhất rồi gửi.\n"
      ++ "BẮT BUỘC phải gọi tool send_flight_info_email."
  else
    s!"Xử lý: {intent}"

-- Regex scraping helpers for `_extract_offer_ids` / `_extract_booking_id`.

/-- Length of the leading whitespace run. -/
def countSpaces : List Char → Nat
  | [] => 0
  | c :: t => if isPySpace c then countSpaces t + 1 else 0

/-- Scan up to an unescaped closing quote:  the captured characters and the
number of characters consumed (capture plus the quote). -/
def grabUntilQuote : List Char → Option (List Char × Nat)
  | [] => none
  | c :: t =>
    if c = '"' then some ([], 1)
    else
      match grabUntilQuote t with
      | some (cap, n) => some (c :: cap, n + 1)
      | none => none

def offerLit : List Char := "\"offer_id\"".toList

/-- Match `"offer_id"\s*:\s*"([^"]+)"` at the head of `l`; on success return
the capture and the total number of characters the match consumed. -/
def matchOfferAt (l : List Char) : Option (String × Nat) :=
  if leadsWith offerLit l then
    let l1 := l.drop offerLit.length
    let ws1 := countSpaces l1
    match l1.drop ws1 with
    | ':' :: l3 =>
      let ws2 := countSpaces l3
      match l3.drop ws2 with
      | '"' :: l5 =>
        match grabUntilQuote l5 with
        | some (cap, n) =>
          if cap.isEmpty then none
          else some (String.mk cap, offerLit.length + ws1 + 1 + ws2 + 1 + n)
        | none => none
      | _ => none
    | _ => none
  else none

/-- `re.findall(r'"offer_id"\s*:\s*"([^"]+)"', text)`: non-overlapping
left-to-right matches. -/
def findOfferIds : List Char → List String
  | [] => []
  | c :: t =>
    match matchOfferAt (c :: t) with
    | some (id, consumed) => id :: findOfferIds (t.drop (consumed - 1))
    | none => findOfferIds t
termination_by l => l.length
decreasing_by
  all_goals simp [List.length_drop]
  omega

def bookingLit : List Char := "\"booking_id\"".toList

def isHexDash (c : Char) : Bool :=
  ('0' ≤ c && c ≤ '9') || ('a' ≤ c && c ≤ 'f') || c = '-'

/-- Match `"booking_id"\s*:\s*"([0-9a-f-]{36})"` at the head of `l`. -/
def matchBookingAt (l : List Char) : Option String :=
  if leadsWith bookingLit l then
    let l1 := l.drop bookingLit.length
    let ws1 := countSpaces l1
    match l1.drop ws1 with
    | ':' :: l3 =>
      let ws2 := countSpaces l3
      match l3.drop ws2 with
      | '"' :: l5 =>
        let cap := l5.take 36
        if cap.length = 36 && cap.all isHexDash
            && (match l5.drop 36 with | '"' :: _ => true | _ => false) then
          some (String.mk cap)
        else none
      | _ => none
    | _ => none
  else none

/-- `re.search` for the booking-id pattern: first match wins. -/
def findBookingId : List Char → Option String
  | [] => none
  | c :: t =>
    match matchBookingAt (c :: t) with
    | some bid => some bid
    | none => findBookingId t

/-- `_extract_offer_ids`: refresh `state["last_offer_ids"]` when at least one
offer id is scraped from the response text (no match ⇒ no state change). -/
def extractOfferIds (respText : String) (state : Dict) : Dict :=
  let ids := findOfferIds respText.toList
  if ids.isEmpty then state
  else dictSet state "last_offer_ids" (.arr (ids.map JVal.str))

/-- `_extract_booking_id`: refresh `state["last_booking_id"]` from the first
scraped 36-character booking id, if any. -/
def extractBookingId (respText : String) (state : Dict) : Dict :=
  match findBookingId respText.toList with
  | some bid => dictSet state "last_booking_id" (.str bid)
  | none => state

/-- `route_message`.  The LLM-dependent pieces are parameters: `detect` is
the classification result of this turn, `flightAgent` / `assistantAgent` map
a task description and the (mutable) state to the sub-agent's response text
and resulting state, and `greetResp` maps the user message to the
`_handle_greeting` response.  An uncaught Python exception is `.error`. -/
def routeMessage (detect : DetectResult)
    (flightAgent assistantAgent : String → Dict → String × Dict)
    (greetResp : String → String) (userMessage : String) (state0 : Dict) :
    Except String (String × Dict × String) := do
  let intent := detect.intent
  let state1 := dictSet state0 "current_intent" (.str intent)
  let state2 :=
    if detect.slots.isEmpty then state1
    else dictSet state1 "slots" (.obj (mergeSlots (getSlotsD state1) detect.slots))
  let (_slots1, missing1, state3) ← autoFill intent detect.slots detect.missingSlots state2
  if !missing1.isEmpty && followUpTruthy detect.followUp then
    let state4 := dictSet state3 "pending_slots" (.arr (missing1.map JVal.str))
    return (detect.followUp.getD "", state4, intent)
  else if FLIGHT_INTENTS.contains intent then
    let task ← buildFlightTask intent (getSlotsD state3) state3
    let (respText, stateA) := flightAgent task state3
    let state4 :=
      if intent = "flight_search" then extractOfferIds respText stateA
      else if intent = "book_flight" then extractBookingId respText stateA
      else stateA
    return (respText, state4, intent)
  else if ASSISTANT_INTENTS.contains intent then
    let task := buildAssistantTask intent (getSlotsD state3)
    let (respText, stateA) := assistantAgent task state3
    return (respText, stateA, intent)
  else if intent = "greeting" then
    return (greetResp userMessage, state3, intent)
  else if intent = "general_question" then
    let (respText, stateA) := assistantAgent ("Trả lời câu hỏi du lịch: " ++ userMessage) state3
    return (respText, stateA, intent)
  else
    return (greetResp userMessage, state3, intent)

-- ── Sub-agent tool-call loops (flight_agent.py, assistant_agent.py) ─────────

/-- One tool call requested by the model: name, raw arguments, call id. -/
structure ToolCallReq where
  name : String
  args : String
  callId : String

/-- A model response: text content plus any requested tool calls (an empty
list is the falsy `tool_calls`, i.e. a plain-text final answer). -/
structure ModelResp where
  content : String
  toolCalls : List ToolCallReq

/-- Role-tagged messages accumulated by an agent loop. -/
inductive AgentMsg where
  | sys (content : String)
  | user (content : String)
  | ai (resp : ModelResp)
  | toolMsg (content : String) (callId : String)

/-- The tool catalog: tool name paired with its invocation (which may raise). -/
abbrev ToolCatalog := List (String × (String → Except String String))

/-- `next((t for t in TOOLS if t.name == tool_name), None)`. -/
def findTool (catalog : ToolCatalog) (n : String) :
    Option (String → Except String String) :=
  match catalog with
  | [] => none
  | (n', f) :: t => if n' = n then some f else findTool t n

/-- Look up and invoke one requested tool: a missing name or a raised
exception becomes an error-string result, never a crash. -/
def toolResultStr (catalog : ToolCatalog) (tc : ToolCallReq) : String :=
  match findTool catalog tc.name with
  | none =>
    let n := tc.name
    s!"Tool \x27{n}\x27 not found."
  | some f =>
    match f tc.args with
    | .ok r => r
    | .error e => s!"Error: {e}"

/-- Execute the requested tool calls in order, appending one `ToolMessage`
per call and applying the per-tool state side effects.  `sideEffect`
abstracts flight_agent.py lines 166-205 (the best-effort JSON scraping of
`search_flights` / `create_booking` results into `last_offer_ids`,
`last_booking_id`, `_attachments`, `_suggested_actions`); it never
influences control flow or the produced messages. -/
def processToolCalls (catalog : ToolCatalog)
    (sideEffect : String → String → Dict → Dict)
    (calls : List ToolCallReq) (msgs : List AgentMsg) (st : Dict) :
    List AgentMsg × Dict :=
  calls.foldl
    (fun acc tc =>
      let result := toolResultStr catalog tc
      (acc.1 ++ [.toolMsg result tc.callId], sideEffect tc.name result acc.2))
    (msgs, st)

def MAX_ITERATIONS : Nat := 5

def FLIGHT_LIMIT_MSG : String :=
  "⚠️ Agent đã xử lý quá nhiều bước. Vui lòng thử lại với yêu cầu đơn giản hơn."

def ASSISTANT_LIMIT_MSG : String :=
  "⚠️ Agent đã xử lý quá nhiều bước. Vui lòng thử lại."

/-- The flight agent's bounded loop (flight_agent.py lines 137-216), with
`n` iterations remaining.  `model` is the LLM with tools bound (an `.error`
models `ainvoke` raising).  Returns the response text, the final state, and
the number of model invocations made. -/
def flightAgentLoop (model : List AgentMsg → Except String ModelResp)
    (catalog : ToolCatalog) (sideEffect : String → String → Dict → Dict) :
    Nat → List AgentMsg → Dict → String × Dict × Nat
  | 0, _, st => (FLIGHT_LIMIT_MSG, st, 0)
  | n + 1, msgs, st =>
    match model msgs with
    | .error e => (s!"⚠️ Lỗi khi xử lý yêu cầu: {e}", st, 1)
    | .ok resp =>
      if resp.toolCalls.isEmpty then
        (resp.content, st, 1)
      else
        let pr := processToolCalls catalog sideEffect resp.toolCalls (msgs ++ [.ai resp]) st
        let r := flightAgentLoop model catalog sideEffect n pr.1 pr.2
        (r.1, r.2.1, r.2.2 + 1)

/-- Map the last `k` history turns to role-tagged messages (user/assistant
kept, other roles dropped); history items are (role, content). -/
def historyMsgs (history : List (String × String)) (k : Nat) : List AgentMsg :=
  (history.drop (history.length - k)).filterMap
    (fun m =>
      if m.1 = "user" then some (.user m.2)
      else if m.1 = "assistant" then some (.ai ⟨m.2, []⟩)
      else none)

/-- The flight agent's state-context lines for the task message. -/
def flightStateContext (state : Dict) : String :=
  let c1 :=
    if (dictGetD state "last_offer_ids" .null).truthy then
      let v := pyStr (dictGetD state "last_offer_ids" .null)
      s!"\nCác offer ID đã tìm được trước đó: {v}"
    else ""
  let c2 :=
    if (dictGetD state "selected_offer_index" .null).truthy then
      let v := pyStr (dictGetD state "selected_offer_index" .null)
      s!"\nUser đã chọn chuyến số: {v}"
    else ""
  c1 ++ c2

/-- The literal `FLIGHT_AGENT_PROMPT` system-prompt text. -/
def FLIGHT_AGENT_PROMPT : String :=
  "Bạn là Flight Agent – chuyên gia tìm kiếm và đặt vé máy bay.\n\nNhiệm vụ của bạn:\n• Tìm chuyến bay theo yêu cầu (origin, destination, date)\n• Đặt vé cho hành khách\n• Hủy booking khi được yêu cầu\n\nQuy tắc:\n• LUÔN sử dụng tools được cung cấp để thực hiện tác vụ\n• Trả lời bằng tiếng Việt, ngắn gọn, rõ ràng\n• Khi hiển thị kết quả tìm kiếm, format dạng danh sách có đánh số\n• Hiển thị giá, thời gian bay, số điểm dừng cho mỗi chuyến\n• Nếu không có kết quả, đề xuất thay đổi ngày hoặc điểm đến\n\n**Khi user chọn chuyến bay theo MÃ SỐ HIỆU (VD: VJ145, VN123):**\n⚠️ **QUAN TRỌNG**: Số hiệu chuyến bay KHÔNG đủ để xác định chuyến bay! VJ197 có thể bay nhiều route khác nhau.\n\n1. Đọc origin, destination, depart_date từ task description (Router đã provide thông tin này)\n2. Gọi tool với ĐẦY ĐỦ thông tin từ task:\n   ```\n   get_offer_by_flight_number(\n       flight_number=\"VJ145\",\n       origin=\"HAN\",           # BẮT BUỘC - Lấy từ task description\n       destination=\"SGN\",      # BẮT BUỘC - Lấy từ task description\n       depart_date=\"2026-02-12\" # Tùy chọn - Lấy từ task description nếu có\n   )\n   ```\n3. Nếu tìm thấy (`found: true`), trích xuất `offer_id` từ `offer` trong kết quả\n4. Nếu KHÔNG tìm thấy (`found: false`), thông báo user:\n   \"⚠️ Rất tiếc, tôi không tìm thấy chuyến bay [VJ145] cho route [HAN → SGN] ngày [12/02/2026].\n   Vui lòng tìm kiếm chuyến bay trước, sau đó chọn bằng mã chuyến bay hoặc số thứ tự.\"\n5. Tiếp tục quy trình đặt vé với offer_id đã lấy được\n\n**Khi đặt vé (Booking)**:\n  - Bạn CẦN có `passenger_id` (UUID) và `offer_id` (từ kết quả tìm kiếm hoặc từ get_offer_by_flight_number).\n  - **TUYỆT ĐỐI KHÔNG tự bịa ra UUID hoặc dùng User ID làm Passenger ID.**\n  - Quy trình lấy `passenger_id`:\n    1. Gọi `get_user_preferences` để lấy `default_passenger_id`.\n    2. Nếu không có (None), gọi `get_passengers` để xem danh sách hành khách của user.\n    3. Nếu chỉ có 1 hành khách, có thể dùng ID đó. Nếu có nhiều, hãy liệt kê và hỏi user muốn đặt cho ai.\n    4. Nếu không có hành khách nào, hãy thông báo user cần tạo hồ sơ hành khách trước.\n  - Xác nhận lại thông tin chuyến bay (Số hiệu, hành trình, giá) và Tên hành khách trước khi gọi `create_booking`.\n  - **TUYỆT ĐỐI KHÔNG tự bịa ra mã đặt chỗ (booking reference) hoặc thông báo thành công nếu tool trả về lỗi.**\n  - Nếu tool trả về JSON có chứa `\"error\"`, bạn phải thông báo lỗi đó cho user và yêu cầu hỗ trợ hoặc sửa thông tin.\n  - Chỉ xác nhận đặt vé thành công KHI VÀ CHỈ KHI tool `create_booking` trả về kết quả thành công kèm theo mã đặt chỗ thật từ hệ thống.\n\nFormat kết quả tìm chuyến bay:\n✈️ **Chuyến [số]**: [airline] [flight_number]\n   [origin] → [destination] | [departure] - [arrival]\n   ⏱ [duration] phút | 🔄 [stops] điểm dừng | 💰 [price] [currency]\n\n\n\n"

/-- The literal `ASSISTANT_AGENT_PROMPT` system-prompt text. -/
def ASSISTANT_AGENT_PROMPT : String :=
  "Bạn là Assistant Agent – trợ lý thông tin du lịch.\n\nNhiệm vụ của bạn:\n• Tra cứu thông tin hành khách (passengers) của user → Gọi tool: get_passengers\n• Xem danh sách bookings và trạng thái → Gọi tool: get_bookings\n• Đọc sở thích chuyến bay (preferences) của user → Gọi tool: get_user_preferences\n• Xem lịch bay (calendar events) → Gọi tool: get_calendar_events\n• Thêm booking vào Google Calendar → Gọi tool: add_booking_to_calendar\n• Gửi thông tin chuyến bay qua email → Gọi tool: send_flight_info_email\n• Trả lời các câu hỏi chung về du lịch, visa, thời tiết, tips\n\n**QUY TẮC QUAN TRỌNG**:\n1. KHI task yêu cầu \"CALL TOOL: <tool_name>\", BẮT BUỘC phải gọi tool đó, KHÔNG được trả lời bằng text\n2. Sử dụng tools để truy vấn dữ liệu khi cần (view bookings, passengers, etc.)\n3. Trả lời bằng tiếng Việt, thân thiện, dễ hiểu\n4. Format thông tin booking dạng bảng/danh sách rõ ràng\n5. Với câu hỏi chung (không cần tools), trả lời từ kiến thức sẵn có\n6. Không bịa đặt dữ liệu – nếu không có thì nói rõ\n7. Sử dụng emoji phù hợp để tăng trải nghiệm\n\n**XỬ LÝ GOOGLE CALENDAR AUTHORIZATION**:\n- Khi gọi tool add_booking_to_calendar, nếu tool trả về `needs_authorization: true`:\n  - Tool sẽ cung cấp `authorization_url` và `message`\n  - BẮT BUỘC phải hiển thị message và authorization_url cho user\n  - Format response như sau:\n    \n    🔐 **Cần kết nối Google Calendar**\n    \n    [message từ tool]\n    \n    👉 **Click vào link bên dưới để kết nối:**\n    [authorization_url]\n    \n    Sau khi kết nối xong, bạn có thể thử lại yêu cầu thêm vào lịch.\n\nFormat danh sách booking:\n📋 **Booking [ref]** – Trạng thái: [status]\n   💰 [price] [currency] | 📅 Ngày tạo: [date]\n\nFormat thông tin hành khách:\n👤 **[first_name] [last_name]**\n   🛂 Passport: [number] | 🌍 Quốc tịch: [nationality]\n"

/-- `run_flight_agent`: build the initial message list (system prompt, last
6 history turns, task with user-id and state context) and run the bounded
tool-call loop. -/
def runFlightAgent (model : List AgentMsg → Except String ModelResp)
    (catalog : ToolCatalog) (sideEffect : String → String → Dict → Dict)
    (task userId : String) (history : List (String × String)) (state : Dict) :
    String × Dict × Nat :=
  let sc := flightStateContext state
  let msgs := [AgentMsg.sys FLIGHT_AGENT_PROMPT] ++ historyMsgs history 6
    ++ [.user ("User ID: " ++ userId ++ "\n" ++ sc ++ "\n\nNhiệm vụ: " ++ task)]
  flightAgentLoop model catalog sideEffect MAX_ITERATIONS msgs state

def ASSISTANT_MAX_LLM_RETRIES : Nat := 2
def ASSISTANT_RETRY_BACKOFF_S : ℤ := 2

def ASSISTANT_RETRYABLE_KEYWORDS : List String :=
  ["rate limit", "429", "quota", "resource exhausted", "503", "timeout",
   "timed out", "deadline_exceeded", "internal", "unavailable", "connection"]

/-- assistant_agent.py `_is_retryable`: match `(str(exc) + type name)`
lowercased against the keyword set, and treat a blank message as retryable. -/
def asstIsRetryable (excType excMsg : String) : Bool :=
  ASSISTANT_RETRYABLE_KEYWORDS.any
    (fun kw => containsStr (pyLower (excMsg ++ excType)) kw)
  || pyStrip excMsg = ""

/-- The inner transient-retry loop around one assistant LLM invocation
(assistant_agent.py lines 154-176).  Errors carry (type name, message).
Returns the response or the formatted error return, the number of
invocations, and the sleeps performed (`2.0 * 2^attempt`). -/
def asstInvokeGo (model : List AgentMsg → Nat → Except (String × String) ModelResp)
    (msgs : List AgentMsg) (attempt : Nat) :
    Except String ModelResp × Nat × List ℤ :=
  match model msgs attempt with
  | .ok resp => (.ok resp, 1, [])
  | .error (ty, m) =>
    if h : attempt < ASSISTANT_MAX_LLM_RETRIES ∧ asstIsRetryable ty m = true then
      let wait := ASSISTANT_RETRY_BACKOFF_S * 2 ^ attempt
      let r := asstInvokeGo model msgs (attempt + 1)
      (r.1, r.2.1 + 1, wait :: r.2.2)
    else
      let msgShown := if m = "" then "(empty error message)" else m
      (.error s!"⚠️ Lỗi khi xử lý yêu cầu: [{ty}] {msgShown}", 1, [])
termination_by ASSISTANT_MAX_LLM_RETRIES - attempt
decreasing_by omega

/-- The assistant agent's bounded loop (assistant_agent.py lines 151-209).
The final plain-text content passes through `_extract_text`, which is the
identity on the plain strings modelled here.  Returns the response text and
total number of model invocations. -/
def assistantAgentLoop (model : List AgentMsg → Nat → Except (String × String) ModelResp)
    (catalog : ToolCatalog) : Nat → List AgentMsg → String × Nat
  | 0, _ => (ASSISTANT_LIMIT_MSG, 0)
  | n + 1, msgs =>
    let inv := asstInvokeGo model msgs 0
    match inv.1 with
    | .error errReturn => (errReturn, inv.2.1)
    | .ok resp =>
      if resp.toolCalls.isEmpty then
        (resp.content, inv.2.1)
      else
        let pr := processToolCalls catalog (fun _ _ st => st) resp.toolCalls (msgs ++ [.ai resp]) []
        let r := assistantAgentLoop model catalog n pr.1
        (r.1, r.2 + inv.2.1)

/-- `run_assistant_agent`: build the initial message list and run the
bounded tool-call loop. -/
def runAssistantAgent (model : List AgentMsg → Nat → Except (String × String) ModelResp)
    (catalog : ToolCatalog) (task userId : String)
    (history : List (String × String)) : String × Nat :=
  let msgs := [AgentMsg.sys ASSISTANT_AGENT_PROMPT] ++ historyMsgs history 6
    ++ [.user ("User ID: " ++ userId ++ "\n\nNhiệm vụ: " ++ task)]
  assistantAgentLoop model catalog MAX_ITERATIONS msgs

-- ── Streamed orchestrator (backend/app/agents/orchestrator.py) ──────────────

/-- The event kinds yielded by `stream_agent_pipeline`. -/
inductive StreamEvent where
  | token (content : String)
  | errorEv (content : String)
  | attachmentsEv (data : JVal)
  | suggestedEv (data : JVal)
  | doneEv (state : Dict) (intent : String) (fullContent : String)

def isDoneEv : StreamEvent → Bool
  | .doneEv _ _ _ => true
  | _ => false

/-- Whether the event sequence terminates with a `done` event. -/
def lastIsDone (evs : List StreamEvent) : Bool :=
  match evs.getLast? with
  | some e => isDoneEv e
  | none => false

/-- Chunk the response text into 8-character pieces for streaming. -/
def chunkText : List Char → List String
  | [] => []
  | c :: t => String.mk (c :: t.take 7) :: chunkText (t.drop 7)
termination_by l => l.length
decreasing_by
  simp [List.length_drop]
  omega

/-- `state.pop(key, None)` plus the event to emit when the value is truthy. -/
def popEmit (st : Dict) (k : String) (mk : JVal → StreamEvent) :
    List StreamEvent × Dict :=
  match dictGet st k with
  | some v => (if v.truthy then [mk v] else [], dictRemove st k)
  | none => ([], st)

/-- `stream_agent_pipeline`.  The rate-limit guard, the LLM build step
(`buildRes`) and the router run (`routeRes`; an `.error` is any exception
escaping `route_message`) happen in order.  Returns the ordered event
sequence delivered to the caller and the final limiter state (`record_call`
runs only after a successful router run). -/
def streamAgentPipeline (rls : RateLimiterState) (userId : Option String)
    (now : ℤ) (buildRes : Except String Unit)
    (routeRes : Except String (String × Dict × String)) :
    List StreamEvent × RateLimiterState :=
  let checked := checkRateLimit rls userId now
  match checked.2 with
  | .exceeded msg _ => ([.errorEv msg], checked.1)
  | .ok =>
    match buildRes with
    | .error e => ([.errorEv s!"⚠️ Không thể khởi tạo AI: {e}"], checked.1)
    | .ok _ =>
      match routeRes with
      | .error e => ([.errorEv s!"⚠️ Lỗi: {e}"], checked.1)
      | .ok (respText, updState, intent) =>
        let rls2 := recordCall checked.1 userId now
        let tokens := (chunkText respText.toList).map StreamEvent.token
        let att := popEmit updState "_attachments" StreamEvent.attachmentsEv
        let sug := popEmit att.2 "_suggested_actions" StreamEvent.suggestedEv
        (tokens ++ att.1 ++ sug.1 ++ [.doneEv sug.2 intent respText], rls2)

-- ── Concrete stubs used by the verification scenarios ───────────────────────

/-- A sub-agent stub: answers "ok" and leaves the state untouched. -/
def idAgent : String → Dict → String × Dict := fun _ st => ("ok", st)

/-- A greeting stub. -/
def greetHi : String → String := fun _ => "hi"

/-- A model stub that fails with a transient-keyword error twice, then
succeeds. -/
def llmTwoTransient : Nat → Except String String :=
  fun n => if n < 2 then .error "timeout" else .ok "hi"

/-- A model stub that always fails with a non-transient error. -/
def llmFatal : Nat → Except String String := fun _ => .error "bad request"

/-- A model stub that fails with a distinct transient error on every
attempt. -/
def llmAllTransient : Nat → Except String String :=
  fun n => .error s!"timeout {n}"

/-- A streaming model stub: attempt 0 emits a partial chunk and then fails
transiently; attempt 1 emits the full answer and completes. -/
def astreamPartial : Nat → List String × Option String :=
  fun n => if n = 0 then (["Hel"], some "timeout") else (["Hello"], none)

/-- A model stub that requests a tool call on every invocation. -/
def alwaysToolModel : List AgentMsg → Except String ModelResp :=
  fun _ => .ok ⟨"", [⟨"tool_x", "", "call-1"⟩]⟩

/-- The same stub for the assistant agent's retried invocations. -/
def alwaysToolModelA : List AgentMsg → Nat → Except (String × String) ModelResp :=
  fun _ _ => .ok ⟨"", [⟨"tool_x", "", "call-1"⟩]⟩

-- ═══════════════════════════════════════════════════════════════════════════
-- Lemmas and claim theorems
-- ═══════════════════════════════════════════════════════════════════════════

-- ── Shared list/dict lemmas ─────────────────────────────────────────────────

lemma filter_subsume {α : Type} (p q : α → Bool) (l : List α)
    (h : ∀ a, p a = true → q a = true) :
    (l.filter p).filter q = l.filter p := by
  rw [List.filter_filter]
  induction l with
  | nil => rfl
  | cons a t ih =>
    by_cases hp : p a = true
    · simp [List.filter, hp, h a hp, ih]
    · simp only [Bool.not_eq_true] at hp
      simp [List.filter, hp, ih]

lemma getBucket_setBucket_self (l : List (String × UserBucket)) (k : String)
    (b : UserBucket) : getBucket (setBucket l k b) k = b := by
  induction l with
  | nil => simp [setBucket, getBucket]
  | cons p t ih =>
    by_cases hk : p.1 = k
    · simp [setBucket, getBucket, hk]
    · simp [setBucket, getBucket, hk, ih]

lemma getBucket_setBucket_ne (l : List (String × UserBucket)) (k k' : String)
    (b : UserBucket) (h : k ≠ k') :
    getBucket (setBucket l k b) k' = getBucket l k' := by
  induction l with
  | nil => simp [setBucket, getBucket, h]
  | cons p t ih =>
    by_cases hk : p.1 = k
    · simp [setBucket, getBucket, hk, h]
    · simp only [setBucket, hk, if_false]
      by_cases hk' : p.1 = k'
      · simp [getBucket, hk']
      · simp [getBucket, hk', ih]

lemma dictGet_dictSet_self (d : Dict) (k : String) (v : JVal) :
    dictGet (dictSet d k v) k = some v := by
  induction d with
  | nil => simp [dictSet, dictGet]
  | cons p t ih =>
    by_cases hk : p.1 = k
    · simp [dictSet, dictGet, hk]
    · simp [dictSet, dictGet, hk, ih]

lemma dictGet_dictSet_ne (d : Dict) (k k' : String) (v : JVal) (h : k ≠ k') :
    dictGet (dictSet d k v) k' = dictGet d k' := by
  induction d with
  | nil => simp [dictSet, dictGet, h]
  | cons p t ih =>
    by_cases hk : p.1 = k
    · simp [dictSet, dictGet, hk, h]
    · simp only [dictSet, hk, if_false]
      by_cases hk' : p.1 = k'
      · simp [dictGet, hk']
      · simp [dictGet, hk', ih]

lemma dictRemove_of_not_mem (d : Dict) (k : String) (h : dictGet d k = none) :
    dictRemove d k = d := by
  induction d with
  | nil => rfl
  | cons p t ih =>
    by_cases hk : p.1 = k
    · simp [dictGet, hk] at h
    · simp only [dictGet, hk, if_false] at h
      simp [dictRemove, hk, ih h]

lemma popEmit_snd (st : Dict) (k : String) (mk : JVal → StreamEvent) :
    (popEmit st k mk).2 = dictRemove st k := by
  unfold popEmit
  cases h : dictGet st k with
  | none => simp [dictRemove_of_not_mem st k h]
  | some v => simp

-- ── Rate limiter lemmas ─────────────────────────────────────────────────────

lemma prune_hour_after_minute (l : List ℤ) (now : ℤ) :
    (l.filter (fun t => decide (now - WINDOW_MINUTE < t))).filter
        (fun t => decide (now - WINDOW_HOUR < t))
      = l.filter (fun t => decide (now - WINDOW_MINUTE < t)) := by
  apply filter_subsume
  intro a ha
  rw [decide_eq_true_iff] at *
  unfold WINDOW_MINUTE WINDOW_HOUR at *
  linarith

lemma prune_day_after_minute (l : List ℤ) (now : ℤ) :
    (l.filter (fun t => decide (now - WINDOW_MINUTE < t))).filter
        (fun t => decide (now - WINDOW_DAY < t))
      = l.filter (fun t => decide (now - WINDOW_MINUTE < t)) := by
  apply filter_subsume
  intro a ha
  rw [decide_eq_true_iff] at *
  unfold WINDOW_MINUTE WINDOW_DAY at *
  linarith

/-- Characterization of `check_rate_limit`: because `count_in_window` prunes
destructively and the windows are nested, every tier compares the same
minute-pruned user list, and the state keeps the pruned buckets. -/
lemma checkRateLimit_spec (s : RateLimiterState) (uid : Option String) (now : ℤ) :
    checkRateLimit s uid now =
      (let key := rlKey uid
       let ub := (getBucket s.userBuckets key).timestamps.filter
         (fun t => decide (now - WINDOW_MINUTE < t))
       let s1 : RateLimiterState := { s with userBuckets := setBucket s.userBuckets key ⟨ub⟩ }
       if MAX_REQUESTS_PER_MINUTE ≤ ub.length then
         (s1, .exceeded perMinuteMsg COOLDOWN_SECONDS)
       else if MAX_REQUESTS_PER_HOUR ≤ ub.length then
         (s1, .exceeded perHourMsg 60)
       else if MAX_REQUESTS_PER_DAY ≤ ub.length then
         (s1, .exceeded perDayMsg 300)
       else
         let gb := s.globalBucket.timestamps.filter
           (fun t => decide (now - WINDOW_MINUTE < t))
         let s2 : RateLimiterState := { s1 with globalBucket := ⟨gb⟩ }
         if GLOBAL_MAX_REQUESTS_PER_MINUTE ≤ gb.length then
           (s2, .exceeded globalOverloadMsg COOLDOWN_SECONDS)
         else
           (s2, .ok)) := by
  simp only [checkRateLimit, UserBucket.prune, prune_hour_after_minute,
    prune_day_after_minute]

lemma recordCalls_aux (uid : Option String) (ts : List ℤ) :
    ∀ (l g : List ℤ) (c : Nat), c + ts.length ≤ 99 →
    recordCalls ⟨[(rlKey uid, ⟨l⟩)], ⟨g⟩, c⟩ uid ts =
      ⟨[(rlKey uid, ⟨l ++ ts⟩)], ⟨g ++ ts⟩, c + ts.length⟩ := by
  induction ts with
  | nil => intro l g c h; simp [recordCalls]
  | cons t ts ih =>
    intro l g c h
    have h1 : ¬ (100 ≤ c + 1) := by simp at h; omega
    have hrec : recordCall ⟨[(rlKey uid, ⟨l⟩)], ⟨g⟩, c⟩ uid t =
        ⟨[(rlKey uid, ⟨l ++ [t]⟩)], ⟨g ++ [t]⟩, c + 1⟩ := by
      simp [recordCall, getBucket, setBucket, UserBucket.record, h1]
    show recordCalls (recordCall ⟨[(rlKey uid, ⟨l⟩)], ⟨g⟩, c⟩ uid t) uid ts = _
    rw [hrec, ih (l ++ [t]) (g ++ [t]) (c + 1) (by simp at h ⊢; omega)]
    simp only [List.append_assoc, List.singleton_append, List.length_cons]
    congr 1
    omega

lemma recordCalls_from_init (uid : Option String) (t : ℤ) (ts : List ℤ)
    (hlen : (t :: ts).length ≤ 99) :
    recordCalls initRateLimiter uid (t :: ts) =
      ⟨[(rlKey uid, ⟨t :: ts⟩)], ⟨t :: ts⟩, (t :: ts).length⟩ := by
  have hrec : recordCall initRateLimiter uid t =
      ⟨[(rlKey uid, ⟨[t]⟩)], ⟨[t]⟩, 1⟩ := by
    simp [recordCall, initRateLimiter, getBucket, setBucket, UserBucket.record]
  show recordCalls (recordCall initRateLimiter uid t) uid ts = _
  rw [hrec, recordCalls_aux uid ts [t] [t] 1 (by simp at hlen; omega)]
  simp [List.singleton_append]
  omega

/-- C1: after exactly `MAX_REQUESTS_PER_MINUTE` (6) recorded calls whose
timestamps all lie inside the trailing 60-second window at `now`, the next
`check_rate_limit` for that identity raises the per-minute
`RateLimitExceeded` rejection carrying the per-minute message and the
retry-after hint; and at any `now2` past which the 60-second window has
fully elapsed over those calls, `check_rate_limit` succeeds again. -/
theorem c1_per_minute_limit (uid : Option String) (ts : List ℤ) (now now2 : ℤ)
    (hlen : ts.length = MAX_REQUESTS_PER_MINUTE)
    (hin : ∀ t ∈ ts, now - WINDOW_MINUTE < t)
    (hel : ∀ t ∈ ts, t ≤ now2 - WINDOW_MINUTE) :
    (checkRateLimit (recordCalls initRateLimiter uid ts) uid now).2 =
        .exceeded perMinuteMsg COOLDOWN_SECONDS
  ∧ (checkRateLimit (recordCalls initRateLimiter uid ts) uid now2).2 = .ok := by
  match ts, hlen with
  | t :: ts', hlen =>
  have hrc := recordCalls_from_init uid t ts' (by rw [hlen]; decide)
  have hsingle : ∀ b : UserBucket, getBucket [(rlKey uid, b)] (rlKey uid) = b := by
    intro b; simp [getBucket]
  constructor
  · rw [hrc, checkRateLimit_spec]
    have hfil : (t :: ts').filter (fun x => decide (now - WINDOW_MINUTE < x)) = t :: ts' :=
      List.filter_eq_self.mpr (fun a ha => decide_eq_true (hin a ha))
    simp [hsingle, hfil, hlen]
  · rw [hrc, checkRateLimit_spec]
    have hfil : (t :: ts').filter (fun x => decide (now2 - WINDOW_MINUTE < x)) = [] :=
      List.filter_eq_nil_iff.mpr
        (fun a ha => by simp only [decide_eq_true_eq, not_lt]; exact hel a ha)
    simp [hsingle, hfil, MAX_REQUESTS_PER_MINUTE, MAX_REQUESTS_PER_HOUR,
      MAX_REQUESTS_PER_DAY, GLOBAL_MAX_REQUESTS_PER_MINUTE]

/-- C1 witness: the identity "u", six calls at seconds 1..6, checked at 30
(inside the window) and at 70 (window elapsed). -/
theorem c1_per_minute_limit_witness :
    (checkRateLimit (recordCalls initRateLimiter (some "u") [1, 2, 3, 4, 5, 6])
        (some "u") 30).2 = .exceeded perMinuteMsg COOLDOWN_SECONDS
  ∧ (checkRateLimit (recordCalls initRateLimiter (some "u") [1, 2, 3, 4, 5, 6])
        (some "u") 70).2 = .ok :=
  c1_per_minute_limit (some "u") [1, 2, 3, 4, 5, 6] 30 70 (by decide)
    (by decide) (by decide)

lemma checkState_userBuckets (s : RateLimiterState) (uid : Option String) (now : ℤ) :
    (checkRateLimit s uid now).1.userBuckets =
      setBucket s.userBuckets (rlKey uid)
        ⟨(getBucket s.userBuckets (rlKey uid)).timestamps.filter
            (fun t => decide (now - WINDOW_MINUTE < t))⟩ := by
  simp only [checkRateLimit_spec]
  split_ifs <;> rfl

lemma checkState_globalBucket (s : RateLimiterState) (uid : Option String) (now : ℤ) :
    (checkRateLimit s uid now).1.globalBucket = s.globalBucket ∨
    (checkRateLimit s uid now).1.globalBucket =
      ⟨s.globalBucket.timestamps.filter (fun t => decide (now - WINDOW_MINUTE < t))⟩ := by
  simp only [checkRateLimit_spec]
  split_ifs
  · exact Or.inl rfl
  · exact Or.inl rfl
  · exact Or.inl rfl
  · exact Or.inr rfl
  · exact Or.inr rfl

/-- C10: `check_rate_limit` is observation-only — it never appends a
timestamp to any per-identity or global bucket (each bucket after a check is
a sublist of what it was), and repeating the check for the same identity
with no intervening `record_call` at the same clock reading returns the same
outcome (so a rejected check does not itself count against any limit). -/
theorem c10_check_observation_only (s : RateLimiterState) (uid : Option String)
    (now : ℤ) (key : String) :
    ((getBucket (checkRateLimit s uid now).1.userBuckets key).timestamps.Sublist
        (getBucket s.userBuckets key).timestamps)
  ∧ ((checkRateLimit s uid now).1.globalBucket.timestamps.Sublist
        s.globalBucket.timestamps)
  ∧ (checkRateLimit (checkRateLimit s uid now).1 uid now).2 =
        (checkRateLimit s uid now).2 := by
  have hidem : ∀ (l : List ℤ) (pr : ℤ → Bool), (l.filter pr).filter pr = l.filter pr :=
    fun l pr => filter_subsume pr pr l (fun a ha => ha)
  refine ⟨?_, ?_, ?_⟩
  · by_cases hk : rlKey uid = key
    · subst hk
      rw [checkState_userBuckets, getBucket_setBucket_self]
      exact List.filter_sublist _
    · rw [checkState_userBuckets, getBucket_setBucket_ne _ _ _ _ hk]
  · rcases checkState_globalBucket s uid now with h | h
    · rw [h]
    · rw [h]
      exact List.filter_sublist _
  · simp only [checkRateLimit_spec s uid now]
    split_ifs with h1 h2 h3 h4 <;>
      simp [checkRateLimit_spec, getBucket_setBucket_self, hidem, *]

-- ── Retry-policy lemmas (C2) ────────────────────────────────────────────────

lemma invokeWithRetryGo_count (llm : Nat → Except String String) (maxR : Nat) :
    ∀ (k attempt : Nat) (backoff : ℤ), maxR - attempt ≤ k →
      (invokeWithRetryGo llm maxR attempt backoff).2.2 ≤ k + 1 := by
  intro k
  induction k with
  | zero =>
    intro attempt backoff h
    rw [invokeWithRetryGo]
    cases hl : llm attempt with
    | ok c => simp
    | error e =>
      dsimp only
      rw [dif_neg (fun hc : attempt < maxR ∧ _ => absurd hc.1 (by omega))]
  | succ k ih =>
    intro attempt backoff h
    rw [invokeWithRetryGo]
    cases hl : llm attempt with
    | ok c => simp
    | error e =>
      dsimp only
      by_cases hc : attempt < maxR ∧ isRetryableMsg e = true
      · rw [dif_pos hc]
        have := ih (attempt + 1) (backoff * BACKOFF_MULTIPLIER) (by omega)
        simp only
        omega
      · rw [dif_neg hc]
        simp

/-- C2: the retrying model invoker makes at most 3 total attempts; a model
stub failing with transient-keyword errors twice then succeeding yields the
success result after sleeping exactly 1s then 2s; a non-transient error
propagates on the first attempt with zero sleeps; and when all three
attempts fail transiently, the final error propagates after the same two
sleeps. -/
theorem c2_retry_policy
    (llm llmX llmY llmZ : Nat → Except String String)
    (e0 e1 bad f0 f1 f2 r : String)
    (hA0 : llmX 0 = .error e0) (hA1 : llmX 1 = .error e1) (hA2 : llmX 2 = .ok r)
    (hRe0 : isRetryableMsg e0 = true) (hRe1 : isRetryableMsg e1 = true)
    (hB0 : llmY 0 = .error bad) (hRbad : isRetryableMsg bad = false)
    (hC0 : llmZ 0 = .error f0) (hC1 : llmZ 1 = .error f1) (hC2 : llmZ 2 = .error f2)
    (hRf0 : isRetryableMsg f0 = true) (hRf1 : isRetryableMsg f1 = true) :
    (invokeWithRetry llm).2.2 ≤ 3
  ∧ invokeWithRetry llmX = (.ok r, [1, 2], 3)
  ∧ invokeWithRetry llmY = (.error bad, [], 1)
  ∧ invokeWithRetry llmZ = (.error f2, [1, 2], 3) := by
  refine ⟨?_, ?_, ?_, ?_⟩
  · exact invokeWithRetryGo_count llm MAX_RETRIES 2 0 INITIAL_BACKOFF_S (by decide)
  · show invokeWithRetryGo llmX MAX_RETRIES 0 INITIAL_BACKOFF_S = _
    rw [invokeWithRetryGo]
    simp only [hA0]
    rw [dif_pos ⟨by decide, hRe0⟩, invokeWithRetryGo]
    simp only [hA1]
    rw [dif_pos ⟨by decide, hRe1⟩, invokeWithRetryGo]
    simp only [hA2]
    simp [INITIAL_BACKOFF_S, BACKOFF_MULTIPLIER]
  · show invokeWithRetryGo llmY MAX_RETRIES 0 INITIAL_BACKOFF_S = _
    rw [invokeWithRetryGo]
    simp only [hB0]
    rw [dif_neg (fun hc => by rw [hRbad] at hc; exact Bool.false_ne_true hc.2)]
  · show invokeWithRetryGo llmZ MAX_RETRIES 0 INITIAL_BACKOFF_S = _
    rw [invokeWithRetryGo]
    simp only [hC0]
    rw [dif_pos ⟨by decide, hRf0⟩, invokeWithRetryGo]
    simp only [hC1]
    rw [dif_pos ⟨by decide, hRf1⟩, invokeWithRetryGo]
    simp only [hC2]
    rw [dif_neg (fun hc => absurd hc.1 (by decide))]
    simp [INITIAL_BACKOFF_S, BACKOFF_MULTIPLIER]

/-- C2 witness: the concrete stubs — twice-transient-then-success,
immediately-fatal, and always-transient. -/
theorem c2_retry_policy_witness :
    (invokeWithRetry llmTwoTransient).2.2 ≤ 3
  ∧ invokeWithRetry llmTwoTransient = (.ok "hi", [1, 2], 3)
  ∧ invokeWithRetry llmFatal = (.error "bad request", [], 1)
  ∧ invokeWithRetry llmAllTransient = (.error "timeout 2", [1, 2], 3) :=
  c2_retry_policy llmTwoTransient llmTwoTransient llmFatal llmAllTransient
    "timeout" "timeout" "bad request" "timeout 0" "timeout 1" "timeout 2" "hi"
    rfl rfl rfl (by decide) (by decide) rfl (by decide) rfl rfl rfl
    (by decide) (by decide)

-- ── Streamed orchestrator (C3) ──────────────────────────────────────────────

/-- C3 counterexample: on the early rate-limit rejection path the event
sequence is a single `error` event — it does not end with (or contain) a
`done` event, refuting the claim that `done` is terminal on every path. -/
theorem c3_done_counterexample :
    (streamAgentPipeline ⟨[("__anonymous__", ⟨[0, 0, 0, 0, 0, 0]⟩)], ⟨[]⟩, 0⟩
        none 30 (.ok ()) (.ok ("hi", [], "greeting"))).1
      = [.errorEv perMinuteMsg]
  ∧ lastIsDone (streamAgentPipeline ⟨[("__anonymous__", ⟨[0, 0, 0, 0, 0, 0]⟩)], ⟨[]⟩, 0⟩
        none 30 (.ok ()) (.ok ("hi", [], "greeting"))).1 = false := by
  constructor <;> rfl

/-- C3 amended: the `done` event — carrying the final full text, the final
state (with the transient side channels popped) and the detected intent — is
the terminal event exactly on the successful path; on early rate-limit
rejection, on LLM build failure, and on a router failure the sequence is a
single `error` event and no `done` event is emitted. -/
theorem c3_done_amended (rls1 rls2 : RateLimiterState) (uid : Option String)
    (now : ℤ) (msg : String) (ra : Nat) (buildE routeE resp intent : String)
    (st : Dict) (b : Except String Unit)
    (r2 : Except String (String × Dict × String))
    (h1 : (checkRateLimit rls1 uid now).2 = .ok)
    (h2 : (checkRateLimit rls2 uid now).2 = .exceeded msg ra) :
    ((streamAgentPipeline rls1 uid now (.ok ()) (.ok (resp, st, intent))).1.getLast?
      = some (.doneEv (dictRemove (dictRemove st "_attachments") "_suggested_actions")
          intent resp))
  ∧ (streamAgentPipeline rls2 uid now b r2).1 = [.errorEv msg]
  ∧ (streamAgentPipeline rls1 uid now (.error buildE) r2).1
      = [.errorEv ("⚠️ Không thể khởi tạo AI: " ++ buildE)]
  ∧ (streamAgentPipeline rls1 uid now (.ok ()) (.error routeE)).1
      = [.errorEv ("⚠️ Lỗi: " ++ routeE)] := by
  refine ⟨?_, ?_, ?_, ?_⟩
  · simp only [streamAgentPipeline, h1, popEmit_snd]
    rw [List.getLast?_append, List.getLast?_append, List.getLast?_append]
    rfl
  · simp only [streamAgentPipeline, h2]
  · simp only [streamAgentPipeline, h1]
    show [StreamEvent.errorEv ("⚠️ Không thể khởi tạo AI: " ++ buildE ++ "")] = _
    rw [String.append_empty]
  · simp only [streamAgentPipeline, h1]
    show [StreamEvent.errorEv ("⚠️ Lỗi: " ++ routeE ++ "")] = _
    rw [String.append_empty]

/-- C3 witness for the amended theorem: a fresh limiter passes the check, a
limiter with six recent anonymous calls rejects, and the concrete paths
produce the stated event sequences. -/
theorem c3_done_amended_witness :
    ((streamAgentPipeline initRateLimiter none 30 (.ok ())
        (.ok ("hi", [("x", JVal.num 1)], "greeting"))).1.getLast?
      = some (.doneEv (dictRemove (dictRemove [("x", JVal.num 1)] "_attachments")
          "_suggested_actions") "greeting" "hi"))
  ∧ (streamAgentPipeline ⟨[("__anonymous__", ⟨[0, 0, 0, 0, 0, 0]⟩)], ⟨[]⟩, 0⟩
        none 30 (.error "boom") (.ok ("hi", [], "greeting"))).1
      = [.errorEv perMinuteMsg]
  ∧ (streamAgentPipeline initRateLimiter none 30 (.error "boom")
        (.ok ("hi", [], "greeting"))).1
      = [.errorEv ("⚠️ Không thể khởi tạo AI: " ++ "boom")]
  ∧ (streamAgentPipeline initRateLimiter none 30 (.ok ()) (.error "oops")).1
      = [.errorEv ("⚠️ Lỗi: " ++ "oops")] :=
  c3_done_amended initRateLimiter ⟨[("__anonymous__", ⟨[0, 0, 0, 0, 0, 0]⟩)], ⟨[]⟩, 0⟩
    none 30 perMinuteMsg COOLDOWN_SECONDS "boom" "oops" "hi" "greeting"
    [("x", JVal.num 1)] (.error "boom") (.ok ("hi", [], "greeting"))
    (by rfl) (by rfl)

-- ── Tool-call loop lemmas (C4) ──────────────────────────────────────────────

lemma flightAgentLoop_allTools (model : List AgentMsg → Except String ModelResp)
    (catalog : ToolCatalog) (se : String → String → Dict → Dict)
    (hF : ∀ msgs, ∃ resp, model msgs = .ok resp ∧ resp.toolCalls ≠ []) :
    ∀ (n : Nat) (msgs : List AgentMsg) (st : Dict),
      (flightAgentLoop model catalog se n msgs st).1 = FLIGHT_LIMIT_MSG
    ∧ (flightAgentLoop model catalog se n msgs st).2.2 = n := by
  intro n
  induction n with
  | zero => intro msgs st; exact ⟨rfl, rfl⟩
  | succ n ih =>
    intro msgs st
    obtain ⟨resp, hm, hnc⟩ := hF msgs
    have hne : resp.toolCalls.isEmpty = false := List.isEmpty_eq_false.mpr hnc
    simp only [flightAgentLoop, hm, hne, Bool.false_eq_true, if_false]
    constructor
    · exact (ih _ _).1
    · simp [(ih _ _).2]

lemma asstInvokeGo_firstOk (model : List AgentMsg → Nat → Except (String × String) ModelResp)
    (msgs : List AgentMsg) (resp : ModelResp) (hm : model msgs 0 = .ok resp) :
    asstInvokeGo model msgs 0 = (.ok resp, 1, []) := by
  rw [asstInvokeGo, hm]

lemma assistantAgentLoop_allTools (model : List AgentMsg → Nat → Except (String × String) ModelResp)
    (catalog : ToolCatalog)
    (hA : ∀ msgs a, ∃ resp, model msgs a = .ok resp ∧ resp.toolCalls ≠ []) :
    ∀ (n : Nat) (msgs : List AgentMsg),
      (assistantAgentLoop model catalog n msgs).1 = ASSISTANT_LIMIT_MSG
    ∧ (assistantAgentLoop model catalog n msgs).2 = n := by
  intro n
  induction n with
  | zero => intro msgs; exact ⟨rfl, rfl⟩
  | succ n ih =>
    intro msgs
    obtain ⟨resp, hm, hnc⟩ := hA msgs 0
    have hne : resp.toolCalls.isEmpty = false := List.isEmpty_eq_false.mpr hnc
    simp only [assistantAgentLoop, asstInvokeGo_firstOk model msgs resp hm, hne,
      Bool.false_eq_true, if_false]
    constructor
    · exact (ih _).1
    · simp [(ih _).2]

/-- C4: when the model requests at least one tool call on every invocation
(never giving a plain-text final answer), both sub-agents' tool-call loops
terminate after exactly the iteration cap (5) model invocations and return
their fixed capped-loop message, instead of iterating further or crashing. -/
theorem c4_iteration_cap (modelF : List AgentMsg → Except String ModelResp)
    (modelA : List AgentMsg → Nat → Except (String × String) ModelResp)
    (catF catA : ToolCatalog) (se : String → String → Dict → Dict)
    (task userId : String) (history : List (String × String)) (st : Dict)
    (hF : ∀ msgs, ∃ resp, modelF msgs = .ok resp ∧ resp.toolCalls ≠ [])
    (hA : ∀ msgs a, ∃ resp, modelA msgs a = .ok resp ∧ resp.toolCalls ≠ []) :
    ((runFlightAgent modelF catF se task userId history st).1 = FLIGHT_LIMIT_MSG
      ∧ (runFlightAgent modelF catF se task userId history st).2.2 = MAX_ITERATIONS)
  ∧ ((runAssistantAgent modelA catA task userId history).1 = ASSISTANT_LIMIT_MSG
      ∧ (runAssistantAgent modelA catA task userId history).2 = MAX_ITERATIONS) :=
  ⟨flightAgentLoop_allTools modelF catF se hF MAX_ITERATIONS _ st,
   assistantAgentLoop_allTools modelA catA hA MAX_ITERATIONS _⟩

/-- C4 witness: a model stub that always requests one tool call, an empty
catalog, a concrete task, and an empty history/state. -/
theorem c4_iteration_cap_witness :
    ((runFlightAgent alwaysToolModel [] (fun _ _ st => st) "task" "u" [] []).1
        = FLIGHT_LIMIT_MSG
      ∧ (runFlightAgent alwaysToolModel [] (fun _ _ st => st) "task" "u" [] []).2.2
        = MAX_ITERATIONS)
  ∧ ((runAssistantAgent alwaysToolModelA [] "task" "u" []).1 = ASSISTANT_LIMIT_MSG
      ∧ (runAssistantAgent alwaysToolModelA [] "task" "u" []).2 = MAX_ITERATIONS) :=
  c4_iteration_cap alwaysToolModel alwaysToolModelA [] [] (fun _ _ st => st)
    "task" "u" [] []
    (fun _ => ⟨⟨"", [⟨"tool_x", "", "call-1"⟩]⟩, rfl, by simp⟩)
    (fun _ _ => ⟨⟨"", [⟨"tool_x", "", "call-1"⟩]⟩, rfl, by simp⟩)

-- ── Slot-merge lemmas (C5) ──────────────────────────────────────────────────

lemma mergeSlots_cons (old : Dict) (p : String × JVal) (t : Dict) :
    mergeSlots old (p :: t) =
      mergeSlots (if p.2.isNull then old else dictSet old p.1 p.2) t := by
  unfold mergeSlots
  cases hn : p.2.isNull <;> simp [List.filter_cons, hn]

lemma mergeSlots_not_mem (old new : Dict) (k : String)
    (h : k ∉ new.map Prod.fst) :
    dictGet (mergeSlots old new) k = dictGet old k := by
  induction new generalizing old with
  | nil => rfl
  | cons p t ih =>
    rw [mergeSlots_cons]
    have hk : p.1 ≠ k := fun he => h (by simp [he])
    rw [ih _ (fun hm => h (by simp [hm]))]
    cases hn : p.2.isNull
    · simp [hn, dictGet_dictSet_ne _ _ _ _ hk]
    · simp [hn]

lemma mergeSlots_lookup (new : Dict) : ∀ (old : Dict) (k : String),
    (new.map Prod.fst).Nodup →
    dictGet (mergeSlots old new) k =
      (match dictGet new k with
       | some v => if v.isNull then dictGet old k else some v
       | none => dictGet old k) := by
  induction new with
  | nil => intro old k _; rfl
  | cons p t ih =>
    intro old k hnd
    rw [mergeSlots_cons]
    rw [List.map_cons] at hnd
    rcases List.nodup_cons.mp hnd with ⟨hpm, hnd'⟩
    by_cases hk : p.1 = k
    · subst hk
      rw [mergeSlots_not_mem _ _ _ hpm]
      have hget : dictGet (p :: t) p.1 = some p.2 := by simp [dictGet]
      rw [hget]
      cases hn : p.2.isNull
      · simp [hn, dictGet_dictSet_self]
      · simp [hn]
    · have hget : dictGet (p :: t) k = dictGet t k := by simp [dictGet, hk]
      rw [hget, ih _ k hnd']
      cases hn : p.2.isNull
      · simp only [hn, Bool.false_eq_true, if_false]
        rw [dictGet_dictSet_ne _ _ _ _ hk]
      · simp [hn]

/-- C5: on a `route_message` turn the extracted slots are merged into
`state.slots` by `mergeSlots`, for which a non-null new value overwrites the
old value of the same key and a null/absent value never overwrites; and the
concrete two-turn scenario — starting slots `{origin: HAN}`, extracting
`{destination: SGN}` then `{origin: DAD}` — produces
`{origin: HAN, destination: SGN}` and then `{origin: DAD, destination: SGN}`
through `route_message` itself. -/
theorem c5_slot_merge (old new : Dict) (k : String)
    (hnd : (new.map Prod.fst).Nodup) :
    (dictGet (mergeSlots old new) k =
      (match dictGet new k with
       | some v => if v.isNull then dictGet old k else some v
       | none => dictGet old k))
  ∧ routeMessage ⟨"general_question", [("destination", JVal.str "SGN")], [], none⟩
      idAgent idAgent greetHi "m1" [("slots", JVal.obj [("origin", JVal.str "HAN")])]
      = .ok ("ok",
          [("slots", JVal.obj [("origin", JVal.str "HAN"), ("destination", JVal.str "SGN")]),
           ("current_intent", JVal.str "general_question")], "general_question")
  ∧ routeMessage ⟨"general_question", [("origin", JVal.str "DAD")], [], none⟩
      idAgent idAgent greetHi "m2"
      [("slots", JVal.obj [("origin", JVal.str "HAN"), ("destination", JVal.str "SGN")]),
       ("current_intent", JVal.str "general_question")]
      = .ok ("ok",
          [("slots", JVal.obj [("origin", JVal.str "DAD"), ("destination", JVal.str "SGN")]),
           ("current_intent", JVal.str "general_question")], "general_question") :=
  ⟨mergeSlots_lookup new old k hnd, rfl, rfl⟩

/-- C5 witness: the merge lookup evaluated at the scenario's own slot dicts. -/
theorem c5_slot_merge_witness :
    (dictGet (mergeSlots [("origin", JVal.str "HAN")] [("destination", JVal.str "SGN")])
        "destination" =
      (match dictGet [("destination", JVal.str "SGN")] "destination" with
       | some v => if v.isNull then dictGet [("origin", JVal.str "HAN")] "destination"
                   else some v
       | none => dictGet [("origin", JVal.str "HAN")] "destination"))
  ∧ routeMessage ⟨"general_question", [("destination", JVal.str "SGN")], [], none⟩
      idAgent idAgent greetHi "m1" [("slots", JVal.obj [("origin", JVal.str "HAN")])]
      = .ok ("ok",
          [("slots", JVal.obj [("origin", JVal.str "HAN"), ("destination", JVal.str "SGN")]),
           ("current_intent", JVal.str "general_question")], "general_question")
  ∧ routeMessage ⟨"general_question", [("origin", JVal.str "DAD")], [], none⟩
      idAgent idAgent greetHi "m2"
      [("slots", JVal.obj [("origin", JVal.str "HAN"), ("destination", JVal.str "SGN")]),
       ("current_intent", JVal.str "general_question")]
      = .ok ("ok",
          [("slots", JVal.obj [("origin", JVal.str "DAD"), ("destination", JVal.str "SGN")]),
           ("current_intent", JVal.str "general_question")], "general_question") :=
  c5_slot_merge [("origin", JVal.str "HAN")] [("destination", JVal.str "SGN")]
    "destination" (by simp)

-- ── book_flight task resolution (C6) ────────────────────────────────────────

/-- C6: `_build_flight_task` for `book_flight` resolves the offer in priority
order — a truthy explicit `offer_id` wins outright; otherwise a truthy
`flight_number` selects the lookup-by-flight-number task; otherwise a 1-based
`offer_index` indexes `state.last_offer_ids` (index 2 of
`["id-a","id-b","id-c"]` resolves to `"id-b"`), and an out-of-range index
yields the explicit out-of-range task text, which contains none of the
remembered offer ids. -/
theorem c6_book_flight_resolution (slots1 slots2 : Dict) (state : Dict)
    (h1 : (dictGetD slots1 "offer_id" JVal.null).truthy = true)
    (h2 : (dictGetD slots2 "offer_id" JVal.null).truthy = false)
    (h3 : (dictGetD slots2 "flight_number" JVal.null).truthy = true) :
    buildFlightTask "book_flight" slots1 state
      = .ok ("Đặt vé cho offer_id: " ++ pyStr (dictGetD slots1 "offer_id" JVal.null)
          ++ ". Lấy passenger mặc định của user.")
  ∧ buildFlightTask "book_flight" slots2 state
      = .ok (let fn := pyStr (dictGetD slots2 "flight_number" JVal.null)
             let origin := pyStr (dictGetD slots2 "origin" (JVal.str "?"))
             let destination := pyStr (dictGetD slots2 "destination" (JVal.str "?"))
             let departDate := pyStr (dictGetD slots2 "depart_date" (JVal.str ""))
             s!"Tìm offer_id của chuyến bay {fn} bằng tool get_offer_by_flight_number với:\n"
               ++ s!"- flight_number: {fn}\n"
               ++ s!"- origin: {origin}\n"
               ++ s!"- destination: {destination}\n"
               ++ s!"- depart_date: {departDate}\n"
               ++ "Sau đó đặt vé. Lấy passenger mặc định của user.")
  ∧ buildFlightTask "book_flight" [("offer_index", JVal.num 2)]
        [("last_offer_ids", JVal.arr [JVal.str "id-a", JVal.str "id-b", JVal.str "id-c"])]
      = .ok "Đặt vé cho offer_id: id-b. Lấy passenger mặc định của user."
  ∧ buildFlightTask "book_flight" [("offer_index", JVal.num 5)]
        [("last_offer_ids", JVal.arr [JVal.str "id-a", JVal.str "id-b", JVal.str "id-c"])]
      = .ok "User chọn chuyến số 5 nhưng chỉ có 3 chuyến. Thông báo lỗi."
  ∧ containsStr "User chọn chuyến số 5 nhưng chỉ có 3 chuyến. Thông báo lỗi." "id-a" = false
  ∧ containsStr "User chọn chuyến số 5 nhưng chỉ có 3 chuyến. Thông báo lỗi." "id-b" = false
  ∧ containsStr "User chọn chuyến số 5 nhưng chỉ có 3 chuyến. Thông báo lỗi." "id-c" = false := by
  refine ⟨?_, ?_, by rfl, by rfl, by decide, by decide, by decide⟩
  · simp only [buildFlightTask, h1]
    rfl
  · simp only [buildFlightTask, h2, h3]
    rfl

/-- C6 witness: an explicit offer id, and a flight-number slot with the
search context slots. -/
theorem c6_book_flight_resolution_witness :
    buildFlightTask "book_flight" [("offer_id", JVal.str "of-9")] []
      = .ok ("Đặt vé cho offer_id: "
          ++ pyStr (dictGetD [("offer_id", JVal.str "of-9")] "offer_id" JVal.null)
          ++ ". Lấy passenger mặc định của user.")
  ∧ (dictGetD [("flight_number", JVal.str "VJ145")] "offer_id" JVal.null).truthy = false :=
  ⟨(c6_book_flight_resolution [("offer_id", JVal.str "of-9")]
      [("flight_number", JVal.str "VJ145")] [] (by decide) (by decide) (by decide)).1,
   by decide⟩

-- ── Auto-fill of booking_id (C7) ────────────────────────────────────────────

/-- C7 (code bug): with intent `add_to_calendar`, no extracted slots at all,
and `state.last_booking_id` present but no `state["slots"]` entry, the
auto-fill assignment `state["slots"]["booking_id"] = last_booking_id`
raises `KeyError` instead of completing — `route_message` crashes on this
input.  When `state["slots"]` exists, the auto-fill behaves as the claim
says: `booking_id` is filled into the delegation slots and `state.slots`,
and it is removed from `missing_slots`, so delegation proceeds. -/
theorem c7_autofill_keyerror :
    routeMessage ⟨"add_to_calendar", [], [], none⟩ idAgent idAgent greetHi
        "Thêm vào lịch" [("last_booking_id", JVal.str "b-123")]
      = .error "KeyError: \x27slots\x27"
  ∧ routeMessage ⟨"add_to_calendar", [("booking_id", JVal.null)], ["booking_id"],
        some "Cho mình xin booking id?"⟩ idAgent idAgent greetHi "Thêm vào lịch"
        [("slots", JVal.obj []), ("last_booking_id", JVal.str "b-123")]
      = .ok ("ok",
          [("slots", JVal.obj [("booking_id", JVal.str "b-123")]),
           ("last_booking_id", JVal.str "b-123"),
           ("current_intent", JVal.str "add_to_calendar")], "add_to_calendar") :=
  ⟨rfl, rfl⟩

-- ── Streamed vs batch retry (C8) ────────────────────────────────────────────

lemma streamChatRetry_astreamPartial :
    streamChatRetry astreamPartial "gemini" "gemini-pro" = (["Hel", "Hello"], [1], true) := by
  rw [streamChatRetry, streamChatGo]
  norm_num [astreamPartial]
  rw [if_pos (⟨by decide, by decide⟩ : 0 < MAX_RETRIES ∧ isRetryableMsg "timeout" = true),
    streamChatGo]
  norm_num [astreamPartial, INITIAL_BACKOFF_S]
  decide

/-- C8 counterexample: with a stream that emits "Hel" and then fails
transiently, and a retry that emits "Hello" and completes, the caller's
delivered chunk sequence is `["Hel", "Hello"]` — the partial output emitted
before the mid-stream failure was already delivered and is not discarded
from the caller's point of view. -/
theorem c8_partial_output_counterexample :
    streamChatRetry astreamPartial "gemini" "gemini-pro" = (["Hel", "Hello"], [1], true)
  ∧ "Hel" ∈ (streamChatRetry astreamPartial "gemini" "gemini-pro").1 := by
  refine ⟨streamChatRetry_astreamPartial, ?_⟩
  rw [streamChatRetry_astreamPartial]
  decide

lemma streamBatch_agree (astream : Nat → List String × Option String)
    (prov mn : String) : ∀ (k attempt : Nat) (backoff : ℤ),
    MAX_RETRIES - attempt ≤ k →
    (streamChatGo astream prov mn attempt backoff).2.1 =
      (invokeWithRetryGo (batchOf astream) MAX_RETRIES attempt backoff).2.1
  ∧ ((streamChatGo astream prov mn attempt backoff).2.2 = true ↔
      (invokeWithRetryGo (batchOf astream) MAX_RETRIES attempt backoff).1.isOk = true) := by
  intro k
  induction k with
  | zero =>
    intro attempt backoff h
    rw [streamChatGo, invokeWithRetryGo]
    simp only [batchOf]
    cases hsnd : (astream attempt).2 with
    | none => simp [Except.isOk, Except.toBool]
    | some e =>
      dsimp only
      rw [dif_neg (fun hc : attempt < MAX_RETRIES ∧ _ => absurd hc.1 (by omega)),
        dif_neg (fun hc : attempt < MAX_RETRIES ∧ _ => absurd hc.1 (by omega))]
      simp [Except.isOk, Except.toBool]
  | succ k ih =>
    intro attempt backoff h
    rw [streamChatGo, invokeWithRetryGo]
    simp only [batchOf]
    cases hsnd : (astream attempt).2 with
    | none => simp [Except.isOk, Except.toBool]
    | some e =>
      dsimp only
      by_cases hc : attempt < MAX_RETRIES ∧ isRetryableMsg e = true
      · rw [dif_pos hc, dif_pos hc]
        have := ih (attempt + 1) (backoff * BACKOFF_MULTIPLIER) (by omega)
        simp only
        exact ⟨by rw [this.1], this.2⟩
      · rw [dif_neg hc, dif_neg hc]
        simp [Except.isOk, Except.toBool]

/-- C8 amended: the streamed mode applies the very same retry policy as the
batch helper — identical sleep schedule and identical success/failure
classification against the same per-attempt errors — and a mid-stream
failure restarts the call from scratch (the retried attempt is consumed from
its beginning); but the chunks yielded before the failure were already
delivered, so the delivered sequence is the pre-failure partial output
followed by the retried attempt's full output, not the final response
alone. -/
theorem c8_retry_amended (as2 astream : Nat → List String × Option String)
    (pv mv prov mn : String) (p full : List String) (e : String)
    (h0 : astream 0 = (p, some e)) (h1 : astream 1 = (full, none))
    (hre : isRetryableMsg e = true) :
    ((streamChatRetry as2 pv mv).2.1 = (invokeWithRetry (batchOf as2)).2.1
      ∧ ((streamChatRetry as2 pv mv).2.2 = true ↔
          (invokeWithRetry (batchOf as2)).1.isOk = true))
  ∧ streamChatRetry astream prov mn
      = (p.filter (fun c => c ≠ "") ++ full.filter (fun c => c ≠ ""), [1], true) := by
  constructor
  · exact streamBatch_agree as2 pv mv MAX_RETRIES 0 INITIAL_BACKOFF_S (by decide)
  · show streamChatGo astream prov mn 0 INITIAL_BACKOFF_S = _
    rw [streamChatGo]
    simp only [h0]
    rw [dif_pos ⟨by decide, hre⟩, streamChatGo]
    simp only [h1]
    rfl

/-- C8 witness: the concrete partial-then-success streaming stub. -/
theorem c8_retry_amended_witness :
    ((streamChatRetry astreamPartial "gemini" "gemini-pro").2.1 =
        (invokeWithRetry (batchOf astreamPartial)).2.1
      ∧ ((streamChatRetry astreamPartial "gemini" "gemini-pro").2.2 = true ↔
          (invokeWithRetry (batchOf astreamPartial)).1.isOk = true))
  ∧ streamChatRetry astreamPartial "gemini" "gemini-pro"
      = (["Hel"].filter (fun c => c ≠ "") ++ ["Hello"].filter (fun c => c ≠ ""),
         [1], true) :=
  c8_retry_amended astreamPartial astreamPartial "gemini" "gemini-pro" "gemini"
    "gemini-pro" ["Hel"] ["Hello"] "timeout" rfl rfl (by decide)

-- ── pending_slots lifecycle (C9) ────────────────────────────────────────────

/-- C9 counterexample: turn 1 (flight_search with missing slots and a
follow-up) stores `pending_slots`; turn 2's classification finds no missing
slots and completes, yet `pending_slots` is still set in the returned state
— `route_message` never clears it. -/
theorem c9_pending_slots_counterexample :
    (routeMessage ⟨"flight_search", [("origin", JVal.str "HAN")],
        ["destination", "depart_date"], some "Bạn muốn bay đến đâu?"⟩
      idAgent idAgent greetHi "m1" [])
      = .ok ("Bạn muốn bay đến đâu?",
          [("current_intent", JVal.str "flight_search"),
           ("slots", JVal.obj [("origin", JVal.str "HAN")]),
           ("pending_slots", JVal.arr [JVal.str "destination", JVal.str "depart_date"])],
          "flight_search")
  ∧ (routeMessage ⟨"general_question", [], [], none⟩ idAgent idAgent greetHi "m2"
        [("current_intent", JVal.str "flight_search"),
         ("slots", JVal.obj [("origin", JVal.str "HAN")]),
         ("pending_slots", JVal.arr [JVal.str "destination", JVal.str "depart_date"])])
      = .ok ("ok",
          [("current_intent", JVal.str "general_question"),
           ("slots", JVal.obj [("origin", JVal.str "HAN")]),
           ("pending_slots", JVal.arr [JVal.str "destination", JVal.str "depart_date"])],
          "general_question")
  ∧ dictGet [("current_intent", JVal.str "general_question"),
        ("slots", JVal.obj [("origin", JVal.str "HAN")]),
        ("pending_slots", JVal.arr [JVal.str "destination", JVal.str "depart_date"])]
      "pending_slots"
      = some (JVal.arr [JVal.str "destination", JVal.str "depart_date"]) :=
  ⟨rfl, rfl, rfl⟩

lemma autoFill_ok_missing (intent : String) (slots : Dict) (missing : List String)
    (state : Dict) (res : Dict × List String × Dict)
    (h : autoFill intent slots missing state = .ok res) :
    res.2.1 = missing ∨ res.2.1 = missing.erase "booking_id" := by
  unfold autoFill at h
  dsimp only at h
  split_ifs at h
  all_goals try (left; cases h; rfl)
  split at h
  · right; cases h; rfl
  · exact absurd h (by simp)
  · exact absurd h (by simp)

lemma autoFill_ok_pending (intent : String) (slots : Dict) (missing : List String)
    (state : Dict) (res : Dict × List String × Dict)
    (h : autoFill intent slots missing state = .ok res) :
    dictGet res.2.2 "pending_slots" = dictGet state "pending_slots" := by
  unfold autoFill at h
  dsimp only at h
  split_ifs at h
  all_goals try (cases h; rfl)
  split at h
  · cases h
    exact dictGet_dictSet_ne _ "slots" "pending_slots" _ (by decide)
  · exact absurd h (by simp)
  · exact absurd h (by simp)

lemma extractOfferIds_pending (resp : String) (s : Dict) :
    dictGet (extractOfferIds resp s) "pending_slots" = dictGet s "pending_slots" := by
  unfold extractOfferIds
  dsimp only
  split_ifs
  · rfl
  · exact dictGet_dictSet_ne _ "last_offer_ids" "pending_slots" _ (by decide)

lemma extractBookingId_pending (resp : String) (s : Dict) :
    dictGet (extractBookingId resp s) "pending_slots" = dictGet s "pending_slots" := by
  unfold extractBookingId
  cases findBookingId resp.toList with
  | none => rfl
  | some bid => exact dictGet_dictSet_ne _ "last_booking_id" "pending_slots" _ (by decide)

lemma exceptBind_ok {α β : Type} (x : Except String α) (f : α → Except String β)
    (b : α) (h : x = Except.ok b) : (x >>= f) = f b := by subst h; rfl

lemma exceptBind_error {α β : Type} (x : Except String α) (f : α → Except String β)
    (e : String) (h : x = Except.error e) : (x >>= f) = Except.error e := by subst h; rfl

lemma exceptPure_inj {α : Type} {a b : α}
    (h : (pure a : Except String α) = Except.ok b) : a = b :=
  Except.ok.inj h

/-- C9 amended: `route_message` sets `pending_slots` (storing this turn's
missing slots) when the classification reports missing slots with a
follow-up question, but it never clears the field: on any turn whose
classification finds no missing required slots, the `pending_slots` entry in
the returned state is exactly what it was in the input state (sub-agents are
assumed not to touch it, which the modelled agents never do). -/
theorem c9_pending_slots_amended (d1 d2 : DetectResult)
    (fa aa : String → Dict → String × Dict) (greet : String → String)
    (um1 um2 : String) (st st1' st2' : Dict) (r1 r2 i1 i2 fu : String)
    (hfa : ∀ t s, dictGet (fa t s).2 "pending_slots" = dictGet s "pending_slots")
    (haa : ∀ t s, dictGet (aa t s).2 "pending_slots" = dictGet s "pending_slots")
    (hm1 : d1.missingSlots = [])
    (hm2 : d2.missingSlots ≠ []) (hfu : d2.followUp = some fu) (hfune : fu ≠ "")
    (hint2 : d2.intent = "flight_search") :
    (routeMessage d1 fa aa greet um1 st = .ok (r1, st1', i1) →
        dictGet st1' "pending_slots" = dictGet st "pending_slots")
  ∧ (routeMessage d2 fa aa greet um2 st = .ok (r2, st2', i2) →
        dictGet st2' "pending_slots"
          = some (JVal.arr (d2.missingSlots.map JVal.str))) := by
  constructor
  · intro hr
    unfold routeMessage at hr
    dsimp only at hr
    set st1t := dictSet st "current_intent" (JVal.str d1.intent) with hst1t
    set st2t := (if List.isEmpty d1.slots = true then st1t
        else dictSet st1t "slots" (JVal.obj (mergeSlots (getSlotsD st1t) d1.slots)))
      with hst2t
    have hpend2 : dictGet st2t "pending_slots" = dictGet st "pending_slots" := by
      rw [hst2t]
      split_ifs
      · rw [hst1t]
        exact dictGet_dictSet_ne _ _ _ _ (by decide)
      · rw [dictGet_dictSet_ne _ _ _ _ (by decide), hst1t]
        exact dictGet_dictSet_ne _ _ _ _ (by decide)
    cases hE : autoFill d1.intent d1.slots d1.missingSlots st2t with
    | error e =>
      rw [exceptBind_error _ _ _ hE] at hr
      exact absurd hr (by simp)
    | ok trip =>
      obtain ⟨s1, m1, st3⟩ := trip
      rw [exceptBind_ok _ _ _ hE] at hr
      dsimp only at hr
      have hm0 : m1 = [] := by
        rcases autoFill_ok_missing _ _ _ _ _ hE with h | h
        · rw [hm1] at h
          exact h
        · rw [hm1] at h
          simpa using h
      subst hm0
      have hP3 : dictGet st3 "pending_slots" = dictGet st "pending_slots" :=
        (autoFill_ok_pending _ _ _ _ _ hE).trans hpend2
      rw [if_neg (by simp)] at hr
      split_ifs at hr
      all_goals
        first
        | (cases hBT : buildFlightTask d1.intent (getSlotsD st3) st3 with
            | error e =>
              rw [exceptBind_error _ _ _ hBT] at hr
              exact absurd hr (by simp)
            | ok task =>
              rw [exceptBind_ok _ _ _ hBT] at hr
              have h := exceptPure_inj hr
              simp only [Prod.mk.injEq] at h
              obtain ⟨-, hst, -⟩ := h
              rw [← hst]
              first
              | (rw [extractOfferIds_pending, hfa]
                 exact hP3)
              | (rw [extractBookingId_pending, hfa]
                 exact hP3)
              | (rw [hfa]
                 exact hP3))
        | (have h := exceptPure_inj hr
           simp only [Prod.mk.injEq] at h
           obtain ⟨-, hst, -⟩ := h
           first
           | (rw [← hst, haa]
              exact hP3)
           | (rw [← hst]
              exact hP3))
  · intro hr
    unfold routeMessage at hr
    dsimp only at hr
    set st1t := dictSet st "current_intent" (JVal.str d2.intent) with hst1t
    set st2t := (if List.isEmpty d2.slots = true then st1t
        else dictSet st1t "slots" (JVal.obj (mergeSlots (getSlotsD st1t) d2.slots)))
      with hst2t
    have hAF : autoFill d2.intent d2.slots d2.missingSlots st2t
        = .ok (d2.slots, d2.missingSlots, st2t) := by
      unfold autoFill
      rw [hint2]
      simp
    rw [exceptBind_ok _ _ _ hAF] at hr
    dsimp only at hr
    have hcond : (!d2.missingSlots.isEmpty && followUpTruthy d2.followUp) = true := by
      simp [followUpTruthy, hfu, hfune, List.isEmpty_eq_false.mpr hm2]
    rw [if_pos hcond] at hr
    have h := exceptPure_inj hr
    simp only [Prod.mk.injEq] at h
    obtain ⟨-, hst, -⟩ := h
    rw [← hst, dictGet_dictSet_self]

/-- C9 witness for the amended theorem: a greeting turn with no missing
slots leaves the stored `pending_slots` untouched, and a flight-search turn
with a missing `origin` and a follow-up stores `["origin"]`. -/
theorem c9_pending_slots_amended_witness :
    dictGet [("pending_slots", JVal.arr [JVal.str "x"]),
        ("current_intent", JVal.str "greeting")] "pending_slots"
      = dictGet [("pending_slots", JVal.arr [JVal.str "x"])] "pending_slots"
  ∧ dictGet [("pending_slots", JVal.arr [JVal.str "origin"]),
        ("current_intent", JVal.str "flight_search")] "pending_slots"
      = some (JVal.arr ((["origin"] : List String).map JVal.str)) := by
  have H := c9_pending_slots_amended ⟨"greeting", [], [], none⟩
    ⟨"flight_search", [], ["origin"], some "q"⟩ idAgent idAgent greetHi "m1" "m2"
    [("pending_slots", JVal.arr [JVal.str "x"])]
    [("pending_slots", JVal.arr [JVal.str "x"]), ("current_intent", JVal.str "greeting")]
    [("pending_slots", JVal.arr [JVal.str "origin"]), ("current_intent", JVal.str "flight_search")]
    "hi" "q" "greeting" "flight_search" "q"
    (fun _ _ => rfl) (fun _ _ => rfl) rfl (by simp) rfl (by simp) rfl
  exact ⟨H.1 rfl, H.2 rfl⟩
